import Mathlib

/-!
# LSM303AGR / HMC5883L magnetometer driver (`teams/adcs/LSM303AGR_magnetometer.c`)

A shallow embedding of the driver's sample pipeline.

* Machine integers are `Int`/`Nat` with explicit wrap-around where a store narrows
  (`int16_t` decoding, the `uint16_t` difference and counter fields); `int` is taken to be at
  least 32 bits wide, so `abs` of an `int32_t` difference is exact.
* `float`/`double` values are rationals; every arithmetic operation is followed by
  `roundToPrec p`, round-to-nearest-even on a `p`-bit significand (24 for `float`, 53 for
  `double`).  The exponent range is not bounded, so overflow to infinity and subnormal results
  are outside the model.
* The header `LSM303AGR_magnetometer.h` is not part of the sources: the scale constants it
  defines are collected in `Header` and passed as a parameter; the record `MagnetometerData` and
  the enumeration `UnitConversionMode` are reconstructed from the way the `.c` file uses them.
* The bus collaborator is not modelled: the six bytes it leaves in `i2cBuff` are an input of
  each read.
-/

namespace Magnetometer

/-! ## Constants of the source file -/

def MAX_CALIBRATION_SAMPLES : Nat := 15
def CALIBRATION_IGNORE_SAMPLES : Nat := 5
def MAX_NUM_MAGNETOMETERS : Nat := 2
def MIN_VALID_MAG_READING : Int := -2048
def MAX_VALID_MAG_READING : Int := 2047
def GLITCH_FILTER_MAX_DIFF : Int := 50

/-- Constants of the absent header: the three raw-to-unit scale factors (the exact value of
each literal) and whether the literal `MAG_CONVERSION_FACTOR_RAW_TO_TESLAS` has type `double`
(otherwise `float`). -/
structure Header where
  MAG_CONVERSION_FACTOR_RAW_TO_NANOTESLAS : ℚ
  MAG_CONVERSION_FACTOR_RAW_TO_TESLAS : ℚ
  MAG_CONVERSION_FACTOR_DEFAULT : ℚ
  teslasIsDouble : Bool

/-- Significand width of the type in which `x * MAG_CONVERSION_FACTOR_RAW_TO_TESLAS` and
`x / MAG_CONVERSION_FACTOR_RAW_TO_TESLAS` are evaluated. -/
def Header.macroPrec (hdr : Header) : Nat := if hdr.teslasIsDouble then 53 else 24

/-- Header values for concrete evaluations: 73 nT per count (the figure the source's comment on
Configuration Register B gives for gain 1370), `double` literals. -/
def exampleHeader : Header :=
  { MAG_CONVERSION_FACTOR_RAW_TO_NANOTESLAS := 73
    MAG_CONVERSION_FACTOR_RAW_TO_TESLAS := 73 / 1000000000
    MAG_CONVERSION_FACTOR_DEFAULT := 73
    teslasIsDouble := true }

/-! ## Data model -/

/-- The `UnitConversionMode` enumeration; the source names three of its values in the `switch`
and sends every other value to `default:`. -/
inductive UnitConversionMode where
  | ConvertToNone
  | ConvertToNanoTeslas
  | ConvertToTeslas
  | ConvertToDefault
  deriving DecidableEq, Repr

/-- The `MagnetometerData` record, with the fields the source file reads or writes. -/
structure MagnetometerData where
  rawX : Int
  rawY : Int
  rawZ : Int
  convertedX : ℚ
  convertedY : ℚ
  convertedZ : ℚ
  conversionMode : UnitConversionMode
  isValid : Nat
  calibration_factor_x : ℚ
  calibration_factor_y : ℚ
  calibration_factor_z : ℚ
  deriving DecidableEq

/-- A `MagnetometerData` in static storage before any write: every field zero (the
enumeration's zero value is not known from the sources and is a parameter). -/
def zeroData (mode0 : UnitConversionMode) : MagnetometerData :=
  { rawX := 0, rawY := 0, rawZ := 0,
    convertedX := 0, convertedY := 0, convertedZ := 0,
    conversionMode := mode0, isValid := 0,
    calibration_factor_x := 0, calibration_factor_y := 0, calibration_factor_z := 0 }

/-- The six bytes `i2cBuff[0..5]` that a read decodes. -/
structure I2cBuff where
  b0 : Fin 256
  b1 : Fin 256
  b2 : Fin 256
  b3 : Fin 256
  b4 : Fin 256
  b5 : Fin 256
  deriving DecidableEq

/-! Test vectors: buffers named after the `(rawX, rawY, rawZ)` they decode to on the HMC5883L
(byte pairs in the order X, Z, Y). -/

def buf_0_0_0 : I2cBuff := ⟨0, 0, 0, 0, 0, 0⟩
def buf_10_20_30 : I2cBuff := ⟨0, 10, 0, 30, 0, 20⟩
def buf_10_0_0 : I2cBuff := ⟨0, 10, 0, 0, 0, 0⟩
def buf_1000_0_0 : I2cBuff := ⟨3, 232, 0, 0, 0, 0⟩
def buf_1030_0_0 : I2cBuff := ⟨4, 6, 0, 0, 0, 0⟩

/-! ## Integer conversions -/

/-- Conversion of a non-negative value to `int16_t`: reduce modulo `2^16` and read as two's
complement. -/
def toInt16 (u : Nat) : Int :=
  if u % 65536 < 32768 then ((u % 65536 : Nat) : Int) else ((u % 65536 : Nat) : Int) - 65536

/-- Conversion to `uint16_t`. -/
def toUInt16 (u : Int) : Nat := (u % 65536).toNat

/-- The expression `(int16_t)(lo | ((int16_t)hi << 8))` of the source, `hi` and `lo` bytes. -/
def decodeAxis (hi lo : Fin 256) : Int :=
  toInt16 (lo.val ||| (hi.val <<< 8))

/-- C's `abs` on the (32-bit) difference of two raw values. -/
def absDiff (a b : Int) : Int := |a - b|

/-! ## Validity check -/

/-- Source function `mag_LSM303AGR_is_reading_valid`. -/
def mag_LSM303AGR_is_reading_valid (data : MagnetometerData) : Nat :=
  if data.rawX > MAX_VALID_MAG_READING ∨ data.rawX < MIN_VALID_MAG_READING then 0
  else if data.rawY > MAX_VALID_MAG_READING ∨ data.rawY < MIN_VALID_MAG_READING then 0
  else if data.rawZ > MAX_VALID_MAG_READING ∨ data.rawZ < MIN_VALID_MAG_READING then 0
  else 1

/-- Modelled from the spec: `mag_is_reading_valid`, the name the read path calls, is not
defined in the sources; the spec's pipeline applies the validity checker there, so it is the
function above. -/
def mag_is_reading_valid (data : MagnetometerData) : Nat :=
  mag_LSM303AGR_is_reading_valid data

/-! ## Floating-point model -/

/-- Nearest integer to a rational, ties to the even neighbour. -/
def roundHalfEven (y : ℚ) : Int :=
  if y - ⌊y⌋ < 1 / 2 then ⌊y⌋
  else if 1 / 2 < y - ⌊y⌋ then ⌊y⌋ + 1
  else if ⌊y⌋ % 2 = 0 then ⌊y⌋ else ⌊y⌋ + 1

/-- Round-to-nearest-even onto the binary floating-point numbers with a `p`-bit significand
(`p = 24`: `float`, `p = 53`: `double`); exponent range unbounded. -/
def roundToPrec (p : Nat) (x : ℚ) : ℚ :=
  if x = 0 then 0
  else (roundHalfEven (x / (2 : ℚ) ^ (Int.log 2 |x| - ((p : Int) - 1))) : ℚ) *
    (2 : ℚ) ^ (Int.log 2 |x| - ((p : Int) - 1))

/-- C's `roundf` on a value already of type `float`: nearest integer, ties away from zero. -/
def roundf (x : ℚ) : Int :=
  if 0 ≤ x then ⌊x + 1 / 2⌋ else -⌊-x + 1 / 2⌋

/-- Conversion of an integral floating value to `int16_t`; undefined (`none`) out of range. -/
def floatToInt16 (v : Int) : Option Int :=
  if -32768 ≤ v ∧ v ≤ 32767 then some v else none

/-! ## Stateless conversions -/

/-- Source function `mag_LSM303AGR_ConvertRawToTeslas`: the product is formed in the type of
the constant and returned as `float`. -/
def mag_LSM303AGR_ConvertRawToTeslas (hdr : Header) (raw : Int) : ℚ :=
  roundToPrec 24 (roundToPrec hdr.macroPrec ((raw : ℚ) * hdr.MAG_CONVERSION_FACTOR_RAW_TO_TESLAS))

/-- Source function `mag_LSM303AGR_ConvertTeslasToRaw`: the quotient is formed in the type of
the constant, passed to `roundf` as `float`, and the result converted to `int16_t`. -/
def mag_LSM303AGR_ConvertTeslasToRaw (hdr : Header) (teslas : ℚ) : Option Int :=
  floatToInt16
    (roundf (roundToPrec 24
      (roundToPrec hdr.macroPrec (teslas / hdr.MAG_CONVERSION_FACTOR_RAW_TO_TESLAS))))

/-- The `switch (desiredConversion)` of the read path: the `double conversionFactor` it
selects, or `none` for the `ConvertToNone` case, which returns early. -/
def conversionFactor (hdr : Header) : UnitConversionMode → Option ℚ
  | .ConvertToNanoTeslas => some hdr.MAG_CONVERSION_FACTOR_RAW_TO_NANOTESLAS
  | .ConvertToTeslas => some hdr.MAG_CONVERSION_FACTOR_RAW_TO_TESLAS
  | .ConvertToNone => none
  | .ConvertToDefault => some hdr.MAG_CONVERSION_FACTOR_DEFAULT

/-- The tail of the read path (`raw * conversionFactor` in `double`, then the validity flag),
applied to the record that is returned.  The `converted` fields are taken to be `double`. -/
def convertSample (factor : ℚ) (d : MagnetometerData) : MagnetometerData :=
  let d1 : MagnetometerData :=
    { d with
      convertedX := roundToPrec 53 ((d.rawX : ℚ) * factor)
      convertedY := roundToPrec 53 ((d.rawY : ℚ) * factor)
      convertedZ := roundToPrec 53 ((d.rawZ : ℚ) * factor) }
  { d1 with isValid := mag_is_reading_valid d1 }

/-- The writes of `mag_LSM303AGR_init` to the record of the slot it registers. -/
def initData (d : MagnetometerData) : MagnetometerData :=
  { d with calibration_factor_x := 1, calibration_factor_y := 1, calibration_factor_z := 1 }

/-! ## Build with `__BSP_HW_MAGTOM_HMC5883L__` and `__HIL_AA_GLITCHFILTER__` -/

namespace GlitchBuild

/-- The `MagInternalData` record of the glitch-filter build. -/
structure MagInternalData where
  hSensor : Nat
  data : MagnetometerData
  prev_data : MagnetometerData
  prev_difference_x : Nat
  prev_difference_y : Nat
  prev_difference_z : Nat
  glitter_count : Nat
  deriving DecidableEq

/-- A slot of `mags` in static storage, all zero. -/
def zeroMag (mode0 : UnitConversionMode) : MagInternalData :=
  { hSensor := 0, data := zeroData mode0, prev_data := zeroData mode0,
    prev_difference_x := 0, prev_difference_y := 0, prev_difference_z := 0,
    glitter_count := 0 }

/-- The slot after `mag_LSM303AGR_init` registered it for device `hSensor`. -/
def initSlot (m : MagInternalData) (hSensor : Nat) : MagInternalData :=
  { m with hSensor := hSensor, data := initData m.data }

/-- Lines 129-138: on every read but the first, store the differences between the two kept
records and copy the previous reading into `prev_data`. -/
def shiftHistory (first_read : Nat) (m : MagInternalData) : MagInternalData :=
  if first_read = 0 then
    { m with
      prev_difference_x := toUInt16 (absDiff m.prev_data.rawX m.data.rawX)
      prev_difference_y := toUInt16 (absDiff m.prev_data.rawY m.data.rawY)
      prev_difference_z := toUInt16 (absDiff m.prev_data.rawZ m.data.rawZ)
      prev_data :=
        { m.prev_data with
          conversionMode := m.data.conversionMode
          rawX := m.data.rawX, rawY := m.data.rawY, rawZ := m.data.rawZ } }
  else m

/-- Lines 140-143: decode the new reading into `data` (byte pairs in the order X, Z, Y). -/
def decodeInto (m : MagInternalData) (i2cBuff : I2cBuff)
    (desiredConversion : UnitConversionMode) : MagInternalData :=
  { m with
    data :=
      { m.data with
        conversionMode := desiredConversion
        rawX := decodeAxis i2cBuff.b0 i2cBuff.b1
        rawZ := decodeAxis i2cBuff.b2 i2cBuff.b3
        rawY := decodeAxis i2cBuff.b4 i2cBuff.b5 } }

/-- Lines 145-156: on the first read, seed `prev_data` from `data` and clear the counters. -/
def firstReadInit (first_read : Nat) (m : MagInternalData) : MagInternalData :=
  if first_read ≠ 0 then
    { m with
      prev_data :=
        { m.prev_data with
          conversionMode := m.data.conversionMode
          rawX := m.data.rawX, rawY := m.data.rawY, rawZ := m.data.rawZ }
      glitter_count := 0
      prev_difference_x := 0, prev_difference_y := 0, prev_difference_z := 0 }
  else m

/-- Lines 158-169: the threshold test and its two outcomes. -/
def glitchDecide (m : MagInternalData) : MagInternalData :=
  if absDiff m.data.rawX m.prev_data.rawX > GLITCH_FILTER_MAX_DIFF ∨
      absDiff m.data.rawY m.prev_data.rawY > GLITCH_FILTER_MAX_DIFF ∨
      absDiff m.data.rawZ m.prev_data.rawZ > GLITCH_FILTER_MAX_DIFF then
    if (m.prev_difference_x : Int) > GLITCH_FILTER_MAX_DIFF ∨
        (m.prev_difference_y : Int) > GLITCH_FILTER_MAX_DIFF ∨
        (m.prev_difference_z : Int) > GLITCH_FILTER_MAX_DIFF then
      { m with
        prev_data :=
          { m.prev_data with rawX := m.data.rawX, rawY := m.data.rawY, rawZ := m.data.rawZ } }
    else
      { m with glitter_count := (m.glitter_count + 1) % 65536 }
  else m

/-- Lines 171-195: convert and validate `prev_data` unless the mode is `ConvertToNone`. -/
def convertPrev (hdr : Header) (m : MagInternalData)
    (desiredConversion : UnitConversionMode) : MagInternalData :=
  match conversionFactor hdr desiredConversion with
  | none => m
  | some factor => { m with prev_data := convertSample factor m.prev_data }

/-- Source function `mag_LSM303AGR_ReadXYZData` in the glitch-filter build, on the file-scope
flag `first_read` and the slot `mags[handle]`.  The result is the new flag, the new slot and
the record the returned pointer (`prevData`) designates. -/
def mag_LSM303AGR_ReadXYZData (hdr : Header) (first_read : Nat) (m : MagInternalData)
    (i2cBuff : I2cBuff) (desiredConversion : UnitConversionMode) :
    (Nat × MagInternalData) × MagnetometerData :=
  let m1 := shiftHistory first_read m
  let m2 := decodeInto m1 i2cBuff desiredConversion
  let m3 := firstReadInit first_read m2
  let m4 := glitchDecide m3
  let m5 := convertPrev hdr m4 desiredConversion
  ((if first_read ≠ 0 then 0 else first_read, m5), m5.prev_data)

/-- One tick: a read on the state `(first_read, mags[handle])`. -/
def tick (hdr : Header) (st : Nat × MagInternalData) (inp : I2cBuff × UnitConversionMode) :
    (Nat × MagInternalData) × MagnetometerData :=
  mag_LSM303AGR_ReadXYZData hdr st.1 st.2 inp.1 inp.2

/-- The state after a sequence of ticks. -/
def run (hdr : Header) (st : Nat × MagInternalData) (inps : List (I2cBuff × UnitConversionMode)) :
    Nat × MagInternalData :=
  inps.foldl (fun s inp => (tick hdr s inp).1) st

/-- The raw triple `(rawX, rawY, rawZ)` of a record. -/
def rawOf (d : MagnetometerData) : Int × Int × Int := (d.rawX, d.rawY, d.rawZ)

/-- The raw triple a buffer decodes to in this build. -/
def decoded (i2cBuff : I2cBuff) : Int × Int × Int :=
  (decodeAxis i2cBuff.b0 i2cBuff.b1, decodeAxis i2cBuff.b4 i2cBuff.b5,
    decodeAxis i2cBuff.b2 i2cBuff.b3)

/-- Some axis of two raw triples differs by more than `GLITCH_FILTER_MAX_DIFF`. -/
def far (a b : Int × Int × Int) : Prop :=
  absDiff a.1 b.1 > GLITCH_FILTER_MAX_DIFF ∨ absDiff a.2.1 b.2.1 > GLITCH_FILTER_MAX_DIFF ∨
    absDiff a.2.2 b.2.2 > GLITCH_FILTER_MAX_DIFF

instance (a b : Int × Int × Int) : Decidable (far a b) := by
  unfold far; infer_instance

/-- Each component of a raw triple is an `int16_t` value. -/
def int16Triple (t : Int × Int × Int) : Prop :=
  (-32768 ≤ t.1 ∧ t.1 ≤ 32767) ∧ (-32768 ≤ t.2.1 ∧ t.2.1 ≤ 32767) ∧
    (-32768 ≤ t.2.2 ∧ t.2.2 ≤ 32767)

/-- A slot of `mags` after static zero initialisation and registration. -/
def freshMag : MagInternalData := initSlot (zeroMag .ConvertToNone) 0

end GlitchBuild

/-! ## Build with `__BSP_HW_MAGTOM_HMC5883L__`, without `__HIL_AA_GLITCHFILTER__` -/

namespace CalibrationBuild

/-- The `MagInternalData` record of the build without the glitch filter; the three
calibration arrays have `MAX_CALIBRATION_SAMPLES` entries. -/
structure MagInternalData where
  hSensor : Nat
  data : MagnetometerData
  calibration_x : List Nat
  calibration_y : List Nat
  calibration_z : List Nat
  curr_calibration_index : Nat
  operation_mode : Nat
  deriving DecidableEq

/-- A slot of `mags` in static storage, all zero. -/
def zeroMag (mode0 : UnitConversionMode) : MagInternalData :=
  { hSensor := 0, data := zeroData mode0,
    calibration_x := List.replicate MAX_CALIBRATION_SAMPLES 0,
    calibration_y := List.replicate MAX_CALIBRATION_SAMPLES 0,
    calibration_z := List.replicate MAX_CALIBRATION_SAMPLES 0,
    curr_calibration_index := 0, operation_mode := 0 }

/-- The slot after `mag_LSM303AGR_init` registered it for device `hSensor` (the configuration
call it makes only writes to the bus; the assignment to `operation_mode` is commented out). -/
def initSlot (m : MagInternalData) (hSensor : Nat) : MagInternalData :=
  { m with hSensor := hSensor, data := initData m.data }

/-- Source function `mag_LSM303AGR_ReadXYZData` in the build without the glitch filter
(lines 198-227), on the slot `mags[handle]`.  The result is the new slot and the record the
returned pointer (`mdata`) designates. -/
def mag_LSM303AGR_ReadXYZData (hdr : Header) (m : MagInternalData) (i2cBuff : I2cBuff)
    (desiredConversion : UnitConversionMode) : MagInternalData × MagnetometerData :=
  let m1 : MagInternalData :=
    { m with
      data :=
        { m.data with
          conversionMode := desiredConversion
          rawX := decodeAxis i2cBuff.b0 i2cBuff.b1
          rawZ := decodeAxis i2cBuff.b2 i2cBuff.b3
          rawY := decodeAxis i2cBuff.b4 i2cBuff.b5 } }
  match conversionFactor hdr desiredConversion with
  | none => (m1, m1.data)
  | some factor =>
    let m2 : MagInternalData := { m1 with data := convertSample factor m1.data }
    (m2, m2.data)

/-- The slot after reading a sequence of buffers, all with the same conversion mode. -/
def feed (hdr : Header) (m : MagInternalData) (mode : UnitConversionMode)
    (samples : List I2cBuff) : MagInternalData :=
  samples.foldl (fun s buf => (mag_LSM303AGR_ReadXYZData hdr s buf mode).1) m

/-- A slot of `mags` after static zero initialisation and registration. -/
def freshMag : MagInternalData := initSlot (zeroMag .ConvertToNone) 0

/-- Test vector: the buffer whose three byte pairs all decode to `k` (for `k < 256`). -/
def sampleBuf (k : Fin 256) : I2cBuff := ⟨0, k, 0, k, 0, k⟩

/-- Test vector: samples numbered `1..n`, sample `k` decoding to `(k, k, k)`. -/
def samplesUpTo (n : Nat) : List I2cBuff :=
  (List.range n).map (fun i => sampleBuf (Fin.ofNat (i + 1)))

end CalibrationBuild

/-! ## Build with `__BSP_HW_MAGTOM_LSM303AGR__` -/

namespace LSM303AGRBuild

/-- Source function `mag_LSM303AGR_ReadXYZData` for the LSM303AGR part (lines 232-234), on the
record `mags[handle].data`: the three byte pairs are decoded in the order X, Y, Z into the
record, and control reaches the end of the function without a `return`, so there is no
returned record (`none`).  Nothing in this branch refills `i2cBuff`. -/
def mag_LSM303AGR_ReadXYZData (mdata : MagnetometerData) (i2cBuff : I2cBuff) :
    MagnetometerData × Option MagnetometerData :=
  ({ mdata with
      rawX := decodeAxis i2cBuff.b0 i2cBuff.b1
      rawY := decodeAxis i2cBuff.b2 i2cBuff.b3
      rawZ := decodeAxis i2cBuff.b4 i2cBuff.b5 }, none)

end LSM303AGRBuild

/-! ## Device registry and handles

`mags` has `MAX_NUM_MAGNETOMETERS` slots.  The source never checks an index into it.  A call
that indexes `mags` beyond the array has undefined behaviour: its stores land outside the
array, and neither its result nor the content of the other file-scope variables afterwards is
determined by the source.  Such a call has result `none`. -/

namespace GlitchBuild

/-- File-scope state of the glitch-filter build: `first_read`, `mags`, `numRegistered`. -/
structure Driver where
  first_read : Nat
  mags : List MagInternalData
  numRegistered : Nat
  deriving DecidableEq

/-- The state at program start: `first_read = 1`, `numRegistered = 0`, `mags` zero. -/
def Driver.start (mode0 : UnitConversionMode) : Driver :=
  { first_read := 1, mags := List.replicate MAX_NUM_MAGNETOMETERS (zeroMag mode0),
    numRegistered := 0 }

/-- Outcome of a `mag_LSM303AGR_init` call whose stores stay inside `mags`: the returned
handle and the state after the call.  The function has no error value. -/
structure InitResult where
  handle : Nat
  driver : Driver
  deriving DecidableEq

/-- Source function `mag_LSM303AGR_init`; `hSensor` is the device reference `i2cInit`
returned.  The configuration writes go to the bus only.  `numRegistered` is a `uint8_t`.
When `numRegistered` is an index of `mags`, the slot is written, the old count is returned
and the count is incremented.  Otherwise the four stores to `mags[numRegistered]` fall outside
the array and the behaviour is undefined (`none`). -/
def mag_LSM303AGR_init (d : Driver) (hSensor : Nat) : Option InitResult :=
  match d.mags[d.numRegistered]? with
  | some m =>
    some
      { handle := d.numRegistered
        driver :=
          { d with
            mags := d.mags.set d.numRegistered (initSlot m hSensor)
            numRegistered := (d.numRegistered + 1) % 256 } }
  | none => none

/-- Source function `mag_LSM303AGR_ReadXYZData` on a handle: the read of `mags[handle]` with
the shared `first_read`.  The result is the new state and the returned record; for a handle
that is no index of `mags` the behaviour is undefined (`none`). -/
def readHandle (hdr : Header) (d : Driver) (handle : Nat) (i2cBuff : I2cBuff)
    (desiredConversion : UnitConversionMode) : Option (Driver × MagnetometerData) :=
  match d.mags[handle]? with
  | some m =>
    some
      ({ d with
          first_read :=
            (mag_LSM303AGR_ReadXYZData hdr d.first_read m i2cBuff desiredConversion).1.1
          mags := d.mags.set handle
            (mag_LSM303AGR_ReadXYZData hdr d.first_read m i2cBuff desiredConversion).1.2 },
        (mag_LSM303AGR_ReadXYZData hdr d.first_read m i2cBuff desiredConversion).2)
  | none => none

/-- Test vector: the state after two registrations from program start, for the device
references 7 and 8. -/
def twoRegistered : Option Driver :=
  ((mag_LSM303AGR_init (Driver.start .ConvertToNone) 7).bind
    (fun rA => mag_LSM303AGR_init rA.driver 8)).map (fun rB => rB.driver)

/-- The state after the first read, and after every later one: the flag is clear and both
kept raw triples hold `int16_t` values. -/
def afterFirstRead (st : Nat × MagInternalData) : Prop :=
  st.1 = 0 ∧ int16Triple (rawOf st.2.data) ∧ int16Triple (rawOf st.2.prev_data)

end GlitchBuild

namespace CalibrationBuild

/-- File-scope state of the build without the glitch filter: `mags`, `numRegistered`. -/
structure Driver where
  mags : List MagInternalData
  numRegistered : Nat
  deriving DecidableEq

/-- The state at program start: `numRegistered = 0`, `mags` zero. -/
def Driver.start (mode0 : UnitConversionMode) : Driver :=
  { mags := List.replicate MAX_NUM_MAGNETOMETERS (zeroMag mode0), numRegistered := 0 }

/-- Outcome of a `mag_LSM303AGR_init` call whose stores stay inside `mags`: the returned
handle and the state after the call.  The function has no error value. -/
structure InitResult where
  handle : Nat
  driver : Driver
  deriving DecidableEq

/-- Source function `mag_LSM303AGR_init`; `hSensor` is the device reference `i2cInit`
returned.  The configuration writes go to the bus only.  `numRegistered` is a `uint8_t`.
When `numRegistered` is an index of `mags`, the slot is written, the old count is returned
and the count is incremented.  Otherwise the four stores to `mags[numRegistered]` fall outside
the array and the behaviour is undefined (`none`). -/
def mag_LSM303AGR_init (d : Driver) (hSensor : Nat) : Option InitResult :=
  match d.mags[d.numRegistered]? with
  | some m =>
    some
      { handle := d.numRegistered
        driver :=
          { d with
            mags := d.mags.set d.numRegistered (initSlot m hSensor)
            numRegistered := (d.numRegistered + 1) % 256 } }
  | none => none

/-- Source function `mag_LSM303AGR_normal_reading_operation_config`: it reads
`mags[handle].hSensor` and writes four bytes to the bus; the assignment to `operation_mode` is
commented out, so the state is unchanged. -/
def mag_LSM303AGR_normal_reading_operation_config (d : Driver) (_handle : Nat) : Driver := d

/-- Source function `mag_LSM303AGR_ReadXYZData` on a handle.  The result is the new state and
the returned record; for a handle that is no index of `mags` the behaviour is undefined
(`none`). -/
def readHandle (hdr : Header) (d : Driver) (handle : Nat) (i2cBuff : I2cBuff)
    (desiredConversion : UnitConversionMode) : Option (Driver × MagnetometerData) :=
  match d.mags[handle]? with
  | some m =>
    some
      ({ d with
          mags := d.mags.set handle
            (mag_LSM303AGR_ReadXYZData hdr m i2cBuff desiredConversion).1 },
        (mag_LSM303AGR_ReadXYZData hdr m i2cBuff desiredConversion).2)
  | none => none

/-- A call of the public surface.  `stray` is the content of `numRegistered` after the call
in case the call stored outside `mags`: that content is not determined by the source, so it
is an input here and may be any value. -/
inductive Call where
  | register (hSensor : Nat) (stray : Nat)
  | configure (handle : Nat)
  | acquire (handle : Nat) (i2cBuff : I2cBuff) (desiredConversion : UnitConversionMode)
      (stray : Nat)

/-- The state after one call.  A call that stores outside `mags` does not store into the
slots of `mags`; it leaves `numRegistered` with the arbitrary content `stray`. -/
def Driver.call (hdr : Header) (d : Driver) : Call → Driver
  | .register hSensor stray =>
    match mag_LSM303AGR_init d hSensor with
    | some r => r.driver
    | none => { d with numRegistered := stray }
  | .configure handle => mag_LSM303AGR_normal_reading_operation_config d handle
  | .acquire handle i2cBuff desiredConversion stray =>
    match readHandle hdr d handle i2cBuff desiredConversion with
    | some r => r.1
    | none => { d with numRegistered := stray }

/-- The state after a sequence of calls. -/
def Driver.calls (hdr : Header) (d : Driver) (cs : List Call) : Driver :=
  cs.foldl (Driver.call hdr) d

/-- The calibration fields of a slot are within their declared bounds. -/
def calibrationOk (m : MagInternalData) : Prop :=
  m.curr_calibration_index < MAX_CALIBRATION_SAMPLES ∧
  m.calibration_x.length = MAX_CALIBRATION_SAMPLES ∧
  m.calibration_y.length = MAX_CALIBRATION_SAMPLES ∧
  m.calibration_z.length = MAX_CALIBRATION_SAMPLES

end CalibrationBuild

end Magnetometer

open Magnetometer

/-! ## Theorems -/

/-- C1: `mag_LSM303AGR_is_reading_valid` returns 1 exactly when each raw axis lies in
`[-2048, 2047]`, returns 0 exactly when some axis is at 2048 or above or at -2049 or below,
and its result is that of the sample with the same raw axes and every other field cleared. -/
theorem C1_is_reading_valid_iff (d : MagnetometerData) :
    (mag_LSM303AGR_is_reading_valid d = 1 ↔
      ((-2048 ≤ d.rawX ∧ d.rawX ≤ 2047) ∧ (-2048 ≤ d.rawY ∧ d.rawY ≤ 2047) ∧
        (-2048 ≤ d.rawZ ∧ d.rawZ ≤ 2047))) ∧
    (mag_LSM303AGR_is_reading_valid d = 0 ↔
      ((2048 ≤ d.rawX ∨ d.rawX ≤ -2049) ∨ (2048 ≤ d.rawY ∨ d.rawY ≤ -2049) ∨
        (2048 ≤ d.rawZ ∨ d.rawZ ≤ -2049))) ∧
    (∀ mode0, mag_LSM303AGR_is_reading_valid d =
      mag_LSM303AGR_is_reading_valid
        { zeroData mode0 with rawX := d.rawX, rawY := d.rawY, rawZ := d.rawZ }) := by
  unfold mag_LSM303AGR_is_reading_valid MAX_VALID_MAG_READING MIN_VALID_MAG_READING
  refine ⟨?_, ?_, ?_⟩
  · split_ifs <;> constructor <;> intro h <;> first | omega | simp at h
  · split_ifs <;> constructor <;> intro h <;> first | omega | simp at h
  · intro mode0
    rfl

/-! ### Integer decoding -/

theorem lor_shift_eq (hi lo : Fin 256) : lo.val ||| (hi.val <<< 8) = hi.val * 256 + lo.val := by
  have h := Nat.mul_add_lt_is_or (i := 8) (b := lo.val) (by have := lo.isLt; omega) hi.val
  rw [Nat.or_comm, Nat.shiftLeft_eq, Nat.mul_comm hi.val (2 ^ 8), ← h]

theorem decodeAxis_eq (hi lo : Fin 256) :
    decodeAxis hi lo =
      if hi.val < 128 then (hi.val * 256 + lo.val : Int) else (hi.val * 256 + lo.val : Int) - 65536 := by
  unfold decodeAxis toInt16
  rw [lor_shift_eq]
  have h1 := hi.isLt
  have h2 := lo.isLt
  push_cast
  split_ifs <;> omega

theorem decodeAxis_range (hi lo : Fin 256) :
    -32768 ≤ decodeAxis hi lo ∧ decodeAxis hi lo ≤ 32767 := by
  rw [decodeAxis_eq]
  have h1 := hi.isLt
  have h2 := lo.isLt
  split_ifs <;> omega

theorem toUInt16_absDiff (a b : Int) (ha : -32768 ≤ a ∧ a ≤ 32767)
    (hb : -32768 ≤ b ∧ b ≤ 32767) : (toUInt16 (absDiff a b) : Int) = absDiff a b := by
  unfold toUInt16 absDiff
  have h0 : 0 ≤ |a - b| := abs_nonneg _
  have h1 : |a - b| < 65536 := by
    rw [abs_lt]; omega
  rw [Int.emod_eq_of_lt h0 h1, Int.toNat_of_nonneg h0]

/-! ### One tick of the glitch-filter build -/

namespace Magnetometer.GlitchBuild

theorem convertPrev_raw (hdr : Header) (m : MagInternalData) (c : UnitConversionMode) :
    rawOf (convertPrev hdr m c).prev_data = rawOf m.prev_data ∧
    (convertPrev hdr m c).data = m.data ∧
    (convertPrev hdr m c).glitter_count = m.glitter_count ∧
    (convertPrev hdr m c).prev_difference_x = m.prev_difference_x ∧
    (convertPrev hdr m c).prev_difference_y = m.prev_difference_y ∧
    (convertPrev hdr m c).prev_difference_z = m.prev_difference_z := by
  unfold convertPrev
  cases conversionFactor hdr c <;> simp [rawOf, convertSample]

/-- The first read: everything about the raw side of the new state. -/
theorem read_first (hdr : Header) (fr : Nat) (hfr : fr ≠ 0) (m : MagInternalData)
    (buf : I2cBuff) (c : UnitConversionMode) :
    (mag_LSM303AGR_ReadXYZData hdr fr m buf c).1.1 = 0 ∧
    rawOf (mag_LSM303AGR_ReadXYZData hdr fr m buf c).2 = decoded buf ∧
    rawOf (mag_LSM303AGR_ReadXYZData hdr fr m buf c).1.2.prev_data = decoded buf ∧
    rawOf (mag_LSM303AGR_ReadXYZData hdr fr m buf c).1.2.data = decoded buf ∧
    (mag_LSM303AGR_ReadXYZData hdr fr m buf c).1.2.glitter_count = 0 ∧
    (mag_LSM303AGR_ReadXYZData hdr fr m buf c).1.2.prev_difference_x = 0 ∧
    (mag_LSM303AGR_ReadXYZData hdr fr m buf c).1.2.prev_difference_y = 0 ∧
    (mag_LSM303AGR_ReadXYZData hdr fr m buf c).1.2.prev_difference_z = 0 := by
  obtain ⟨h1, h2, h3, h4, h5, h6⟩ := convertPrev_raw hdr
    (glitchDecide (firstReadInit fr (decodeInto (shiftHistory fr m) buf c))) c
  simp only [mag_LSM303AGR_ReadXYZData, h1, h2, h3, h4, h5, h6]
  simp [shiftHistory, decodeInto, firstReadInit, glitchDecide, hfr, rawOf, decoded, absDiff,
    GLITCH_FILTER_MAX_DIFF]

theorem decoded_int16 (buf : I2cBuff) : int16Triple (decoded buf) := by
  simp only [int16Triple, decoded]
  exact ⟨decodeAxis_range buf.b0 buf.b1, decodeAxis_range buf.b4 buf.b5,
    decodeAxis_range buf.b2 buf.b3⟩

/-- A later read whose input is within the threshold of the previous input. -/
theorem read_next_near (hdr : Header) (m : MagInternalData) (buf : I2cBuff)
    (c : UnitConversionMode) (hnear : ¬ far (decoded buf) (rawOf m.data)) :
    (mag_LSM303AGR_ReadXYZData hdr 0 m buf c).1.1 = 0 ∧
    rawOf (mag_LSM303AGR_ReadXYZData hdr 0 m buf c).2 = rawOf m.data ∧
    rawOf (mag_LSM303AGR_ReadXYZData hdr 0 m buf c).1.2.prev_data = rawOf m.data ∧
    rawOf (mag_LSM303AGR_ReadXYZData hdr 0 m buf c).1.2.data = decoded buf ∧
    (mag_LSM303AGR_ReadXYZData hdr 0 m buf c).1.2.glitter_count = m.glitter_count := by
  obtain ⟨h1, h2, h3, -, -, -⟩ := convertPrev_raw hdr
    (glitchDecide (firstReadInit 0 (decodeInto (shiftHistory 0 m) buf c))) c
  simp only [mag_LSM303AGR_ReadXYZData, h1, h2, h3]
  simp only [far, rawOf, decoded] at hnear
  simp [shiftHistory, decodeInto, firstReadInit, glitchDecide, rawOf, decoded, hnear]

/-- A later read whose input is beyond the threshold of the previous input: the stored
differences of the two kept records decide between accepting and counting a glitch. -/
theorem read_next_far (hdr : Header) (m : MagInternalData) (buf : I2cBuff)
    (c : UnitConversionMode) (hd : int16Triple (rawOf m.data))
    (hp : int16Triple (rawOf m.prev_data)) (hfar : far (decoded buf) (rawOf m.data)) :
    (mag_LSM303AGR_ReadXYZData hdr 0 m buf c).1.1 = 0 ∧
    rawOf (mag_LSM303AGR_ReadXYZData hdr 0 m buf c).1.2.data = decoded buf ∧
    rawOf (mag_LSM303AGR_ReadXYZData hdr 0 m buf c).1.2.prev_data =
      rawOf (mag_LSM303AGR_ReadXYZData hdr 0 m buf c).2 ∧
    (far (rawOf m.prev_data) (rawOf m.data) →
      rawOf (mag_LSM303AGR_ReadXYZData hdr 0 m buf c).2 = decoded buf ∧
      (mag_LSM303AGR_ReadXYZData hdr 0 m buf c).1.2.glitter_count = m.glitter_count) ∧
    (¬ far (rawOf m.prev_data) (rawOf m.data) →
      rawOf (mag_LSM303AGR_ReadXYZData hdr 0 m buf c).2 = rawOf m.data ∧
      (mag_LSM303AGR_ReadXYZData hdr 0 m buf c).1.2.glitter_count =
        (m.glitter_count + 1) % 65536) := by
  obtain ⟨h1, h2, h3, -, -, -⟩ := convertPrev_raw hdr
    (glitchDecide (firstReadInit 0 (decodeInto (shiftHistory 0 m) buf c))) c
  simp only [mag_LSM303AGR_ReadXYZData, h1, h2, h3]
  simp only [int16Triple, rawOf] at hd hp
  have ex := toUInt16_absDiff m.prev_data.rawX m.data.rawX hp.1 hd.1
  have ey := toUInt16_absDiff m.prev_data.rawY m.data.rawY hp.2.1 hd.2.1
  have ez := toUInt16_absDiff m.prev_data.rawZ m.data.rawZ hp.2.2 hd.2.2
  simp only [far, rawOf, decoded] at hfar ⊢
  refine ⟨by simp, ?_, ?_, ?_, ?_⟩
  · simp only [shiftHistory, decodeInto, firstReadInit, glitchDecide]
    simp only [if_true, ne_eq, not_true_eq_false, if_false, hfar, ex, ey, ez]
    split_ifs <;> rfl
  · trivial
  · intro hpf
    simp only [shiftHistory, decodeInto, firstReadInit, glitchDecide]
    simp only [if_true, ne_eq, not_true_eq_false, if_false, hfar, ex, ey, ez, hpf]
    exact ⟨trivial, trivial⟩
  · intro hpf
    simp only [shiftHistory, decodeInto, firstReadInit, glitchDecide]
    simp only [if_true, ne_eq, not_true_eq_false, if_false, hfar, ex, ey, ez, hpf]
    exact ⟨trivial, trivial⟩

theorem far_comm (a b : Int × Int × Int) : far a b ↔ far b a := by
  simp only [far, absDiff, abs_sub_comm]

theorem not_far_self (a : Int × Int × Int) : ¬ far a a := by
  simp [far, absDiff, GLITCH_FILTER_MAX_DIFF]

/-- After any read the flag is clear and `data` holds the decoded input. -/
theorem tick_state (hdr : Header) (st : Nat × MagInternalData)
    (inp : I2cBuff × UnitConversionMode) :
    (tick hdr st inp).1.1 = 0 ∧ rawOf (tick hdr st inp).1.2.data = decoded inp.1 := by
  obtain ⟨-, h2, -, -, -, -⟩ := convertPrev_raw hdr
    (glitchDecide (firstReadInit st.1 (decodeInto (shiftHistory st.1 st.2) inp.1 inp.2))) inp.2
  have h3 : ∀ m : MagInternalData, (glitchDecide m).data = m.data := by
    intro m
    unfold glitchDecide
    split_ifs <;> rfl
  have h4 : ∀ m : MagInternalData, (firstReadInit st.1 m).data = m.data := by
    intro m
    unfold firstReadInit
    split_ifs <;> rfl
  refine ⟨?_, ?_⟩
  · simp only [tick, mag_LSM303AGR_ReadXYZData]
    split_ifs with h
    · rfl
    · exact not_not.mp h
  · simp only [tick, mag_LSM303AGR_ReadXYZData, h2, h3, h4]
    simp [decodeInto, rawOf, decoded]

theorem tick_eq (hdr : Header) (st : Nat × MagInternalData) (h0 : st.1 = 0)
    (inp : I2cBuff × UnitConversionMode) :
    tick hdr st inp = mag_LSM303AGR_ReadXYZData hdr 0 st.2 inp.1 inp.2 := by
  unfold tick
  rw [h0]

theorem run_snoc (hdr : Header) (st : Nat × MagInternalData)
    (inps : List (I2cBuff × UnitConversionMode)) (inp : I2cBuff × UnitConversionMode) :
    run hdr st (inps ++ [inp]) = (tick hdr (run hdr st inps) inp).1 := by
  simp [run, List.foldl_append]

/-- A first excursion after a settled tick is counted and the previous input returned. -/
theorem spike_step (hdr : Header) (st : Nat × MagInternalData) (A : Int × Int × Int)
    (h0 : st.1 = 0) (hA : rawOf st.2.data = A) (hA16 : int16Triple A)
    (hp : ¬ far (rawOf st.2.prev_data) A) (hp16 : int16Triple (rawOf st.2.prev_data))
    (b : I2cBuff × UnitConversionMode) (hb : far (decoded b.1) A) :
    rawOf (tick hdr st b).2 = A ∧
    (tick hdr st b).1.2.glitter_count = (st.2.glitter_count + 1) % 65536 ∧
    (tick hdr st b).1.1 = 0 ∧
    rawOf (tick hdr st b).1.2.data = decoded b.1 ∧
    rawOf (tick hdr st b).1.2.prev_data = A := by
  subst hA
  rw [tick_eq hdr st h0]
  obtain ⟨f1, f2, f3, -, f5⟩ := read_next_far hdr st.2 b.1 b.2 hA16 hp16 hb
  obtain ⟨g1, g2⟩ := f5 hp
  exact ⟨g1, g2, f1, f2, by rw [f3, g1]⟩

/-- A second consecutive excursion is accepted and returned. -/
theorem confirm_step (hdr : Header) (st : Nat × MagInternalData) (A B : Int × Int × Int)
    (h0 : st.1 = 0) (hB : rawOf st.2.data = B) (hB16 : int16Triple B)
    (hA : rawOf st.2.prev_data = A) (hA16 : int16Triple A) (hAB : far A B)
    (c : I2cBuff × UnitConversionMode) (hc : far (decoded c.1) B) :
    rawOf (tick hdr st c).2 = decoded c.1 ∧
    (tick hdr st c).1.2.glitter_count = st.2.glitter_count ∧
    rawOf (tick hdr st c).1.2.prev_data = decoded c.1 := by
  subst hA hB
  rw [tick_eq hdr st h0]
  obtain ⟨-, -, f3, f4, -⟩ := read_next_far hdr st.2 c.1 c.2 hB16 hA16 hc
  obtain ⟨g1, g2⟩ := f4 hAB
  exact ⟨g1, g2, by rw [f3, g1]⟩

/-- An input within the threshold of the previous input: the previous input is returned. -/
theorem near_step (hdr : Header) (st : Nat × MagInternalData) (A : Int × Int × Int)
    (h0 : st.1 = 0) (hA : rawOf st.2.data = A)
    (c : I2cBuff × UnitConversionMode) (hc : ¬ far (decoded c.1) A) :
    rawOf (tick hdr st c).2 = A ∧
    (tick hdr st c).1.2.glitter_count = st.2.glitter_count ∧
    rawOf (tick hdr st c).1.2.prev_data = A := by
  subst hA
  rw [tick_eq hdr st h0]
  obtain ⟨-, f2, f3, -, f5⟩ := read_next_near hdr st.2 c.1 c.2 hc
  exact ⟨f2, f5, f3⟩

end Magnetometer.GlitchBuild

/-! ## Glitch-filter build: claims -/

section GlitchClaims

open Magnetometer.GlitchBuild

/-- C2: on the first-ever read (`first_read` still set) the returned raw triple is the triple
decoded from the bus, `glitter_count` is 0 and the three stored previous differences are 0
after the call, for every prior slot content, every buffer and every conversion mode. -/
theorem C2_first_read_returns_input (hdr : Header) (first_read : Nat) (h : first_read ≠ 0)
    (m : GlitchBuild.MagInternalData) (buf : I2cBuff) (conv : UnitConversionMode) :
    rawOf (GlitchBuild.mag_LSM303AGR_ReadXYZData hdr first_read m buf conv).2 = decoded buf ∧
    (GlitchBuild.mag_LSM303AGR_ReadXYZData hdr first_read m buf conv).1.2.glitter_count = 0 ∧
    (GlitchBuild.mag_LSM303AGR_ReadXYZData hdr first_read m buf conv).1.2.prev_difference_x = 0 ∧
    (GlitchBuild.mag_LSM303AGR_ReadXYZData hdr first_read m buf conv).1.2.prev_difference_y = 0 ∧
    (GlitchBuild.mag_LSM303AGR_ReadXYZData hdr first_read m buf conv).1.2.prev_difference_z = 0 := by
  obtain ⟨-, h2, -, -, h5, h6, h7, h8⟩ := read_first hdr first_read h m buf conv
  exact ⟨h2, h5, h6, h7, h8⟩

/-- C2 at the spec's input: a fresh slot, first read of raw (10, 20, 30). -/
theorem C2_first_read_witness :
    decoded buf_10_20_30 = (10, 20, 30) ∧
    (rawOf (GlitchBuild.mag_LSM303AGR_ReadXYZData exampleHeader 1 freshMag buf_10_20_30
        .ConvertToTeslas).2 = decoded buf_10_20_30 ∧
      (GlitchBuild.mag_LSM303AGR_ReadXYZData exampleHeader 1 freshMag buf_10_20_30
        .ConvertToTeslas).1.2.glitter_count = 0 ∧
      (GlitchBuild.mag_LSM303AGR_ReadXYZData exampleHeader 1 freshMag buf_10_20_30
        .ConvertToTeslas).1.2.prev_difference_x = 0 ∧
      (GlitchBuild.mag_LSM303AGR_ReadXYZData exampleHeader 1 freshMag buf_10_20_30
        .ConvertToTeslas).1.2.prev_difference_y = 0 ∧
      (GlitchBuild.mag_LSM303AGR_ReadXYZData exampleHeader 1 freshMag buf_10_20_30
        .ConvertToTeslas).1.2.prev_difference_z = 0) :=
  ⟨by decide,
    C2_first_read_returns_input exampleHeader 1 (by decide) freshMag buf_10_20_30
      .ConvertToTeslas⟩

/-- C4, as stated, fails: baseline (0,0,0), then (1000,0,0), then (1030,0,0) — both more than
50 from the baseline — and the third tick returns (1000,0,0), not (1030,0,0). -/
theorem C4_counterexample :
    far (decoded buf_1000_0_0) (decoded buf_0_0_0) ∧
    far (decoded buf_1030_0_0) (decoded buf_0_0_0) ∧
    rawOf (tick exampleHeader (tick exampleHeader (tick exampleHeader (1, freshMag)
      (buf_0_0_0, .ConvertToNone)).1 (buf_1000_0_0, .ConvertToNone)).1
      (buf_1030_0_0, .ConvertToNone)).2 = (1000, 0, 0) ∧
    ¬ rawOf (tick exampleHeader (tick exampleHeader (tick exampleHeader (1, freshMag)
      (buf_0_0_0, .ConvertToNone)).1 (buf_1000_0_0, .ConvertToNone)).1
      (buf_1030_0_0, .ConvertToNone)).2 = decoded buf_1030_0_0 := by
  decide

/-- C4 (amended): from the first-ever tick, for a baseline `b`, a sample `s` more than 50 from
`b` on some axis and any third sample `s'`, the three ticks return `b`, `b`, and then `s'` when
`s'` is more than 50 from `s` on some axis and `s` otherwise (so `s'` again when `s' = s`);
`glitter_count` is left at 1 and the stored `prev_data` raw triple is the third returned
triple. -/
theorem C4_two_excursions (hdr : Header) (first_read : Nat) (hfr : first_read ≠ 0)
    (m0 : GlitchBuild.MagInternalData) (b s s' : I2cBuff × UnitConversionMode)
    (hs : far (decoded s.1) (decoded b.1)) :
    rawOf (tick hdr (first_read, m0) b).2 = decoded b.1 ∧
    rawOf (tick hdr (tick hdr (first_read, m0) b).1 s).2 = decoded b.1 ∧
    rawOf (tick hdr (tick hdr (tick hdr (first_read, m0) b).1 s).1 s').2 =
      (if far (decoded s'.1) (decoded s.1) then decoded s'.1 else decoded s.1) ∧
    (decoded s'.1 = decoded s.1 →
      rawOf (tick hdr (tick hdr (tick hdr (first_read, m0) b).1 s).1 s').2 = decoded s'.1) ∧
    (tick hdr (tick hdr (tick hdr (first_read, m0) b).1 s).1 s').1.2.glitter_count = 1 ∧
    rawOf (tick hdr (tick hdr (tick hdr (first_read, m0) b).1 s).1 s').1.2.prev_data =
      rawOf (tick hdr (tick hdr (tick hdr (first_read, m0) b).1 s).1 s').2 := by
  obtain ⟨f1, f2, f3, f4, f5, -, -, -⟩ := read_first hdr first_read hfr m0 b.1 b.2
  have e1 : tick hdr (first_read, m0) b =
      GlitchBuild.mag_LSM303AGR_ReadXYZData hdr first_read m0 b.1 b.2 := rfl
  rw [← e1] at f1 f2 f3 f4 f5
  obtain ⟨p1, p2, p3, p4, p5⟩ :=
    spike_step hdr _ (decoded b.1) f1 f4 (decoded_int16 _)
      (by rw [f3]; exact not_far_self _) (by rw [f3]; exact decoded_int16 _) s hs
  rw [f5] at p2
  have key : rawOf (tick hdr (tick hdr (tick hdr (first_read, m0) b).1 s).1 s').2 =
        (if far (decoded s'.1) (decoded s.1) then decoded s'.1 else decoded s.1) ∧
      (tick hdr (tick hdr (tick hdr (first_read, m0) b).1 s).1 s').1.2.glitter_count = 1 ∧
      rawOf (tick hdr (tick hdr (tick hdr (first_read, m0) b).1 s).1 s').1.2.prev_data =
        rawOf (tick hdr (tick hdr (tick hdr (first_read, m0) b).1 s).1 s').2 := by
    by_cases hf : far (decoded s'.1) (decoded s.1)
    · obtain ⟨q1, q2, q3⟩ :=
        confirm_step hdr _ (decoded b.1) (decoded s.1) p3 p4 (decoded_int16 _) p5
          (decoded_int16 _) ((far_comm _ _).mp hs) s' hf
      rw [if_pos hf, q1, q2, q3, p2]
      exact ⟨rfl, rfl, rfl⟩
    · obtain ⟨q1, q2, q3⟩ := near_step hdr _ (decoded s.1) p3 p4 s' hf
      rw [if_neg hf, q1, q2, q3, p2]
      exact ⟨rfl, rfl, rfl⟩
  refine ⟨f2, p1, key.1, ?_, key.2.1, key.2.2⟩
  intro he
  rw [key.1, he]
  simp

/-- C4 (amended) at the spec's sequence (0,0,0), (1000,0,0), (1000,0,0). -/
theorem C4_two_excursions_witness :
    decoded buf_1000_0_0 = (1000, 0, 0) ∧
    rawOf (tick exampleHeader (1, freshMag) (buf_0_0_0, .ConvertToNone)).2 = decoded buf_0_0_0 ∧
    rawOf (tick exampleHeader (tick exampleHeader (1, freshMag) (buf_0_0_0, .ConvertToNone)).1
      (buf_1000_0_0, .ConvertToNone)).2 = decoded buf_0_0_0 ∧
    rawOf (tick exampleHeader (tick exampleHeader (tick exampleHeader (1, freshMag)
      (buf_0_0_0, .ConvertToNone)).1 (buf_1000_0_0, .ConvertToNone)).1
      (buf_1000_0_0, .ConvertToNone)).2 = decoded buf_1000_0_0 ∧
    (tick exampleHeader (tick exampleHeader (tick exampleHeader (1, freshMag)
      (buf_0_0_0, .ConvertToNone)).1 (buf_1000_0_0, .ConvertToNone)).1
      (buf_1000_0_0, .ConvertToNone)).1.2.glitter_count = 1 :=
  have h := C4_two_excursions exampleHeader 1 (by decide) freshMag (buf_0_0_0, .ConvertToNone)
    (buf_1000_0_0, .ConvertToNone) (buf_1000_0_0, .ConvertToNone) (by decide)
  ⟨by decide, h.1, h.2.1, h.2.2.2.1 rfl, h.2.2.2.2.1⟩

/-- C5, as stated, fails: first tick (0,0,0), second tick (10,0,0), which is within 50 of the
triple the first tick returned; the second tick returns (0,0,0), not (10,0,0), and `prev_data`
holds (0,0,0). -/
theorem C5_counterexample :
    ¬ far (decoded buf_10_0_0)
      (rawOf (tick exampleHeader (1, freshMag) (buf_0_0_0, .ConvertToNone)).2) ∧
    decoded buf_10_0_0 = (10, 0, 0) ∧
    ¬ rawOf (tick exampleHeader (tick exampleHeader (1, freshMag) (buf_0_0_0, .ConvertToNone)).1
      (buf_10_0_0, .ConvertToNone)).2 = decoded buf_10_0_0 ∧
    rawOf (tick exampleHeader (tick exampleHeader (1, freshMag) (buf_0_0_0, .ConvertToNone)).1
      (buf_10_0_0, .ConvertToNone)).2 = (0, 0, 0) ∧
    rawOf (tick exampleHeader (tick exampleHeader (1, freshMag) (buf_0_0_0, .ConvertToNone)).1
      (buf_10_0_0, .ConvertToNone)).1.2.prev_data = (0, 0, 0) := by
  decide

/-- C5 (amended): on every tick after the first whose input `cur` is within 50 raw LSB
(inclusive) on each axis of the previous tick's input `p`, the tick returns `p` — the previous
input, one tick late — and the stored `prev_data` raw triple equals `p` after the call. -/
theorem C5_in_threshold_returns_previous (hdr : Header) (st : Nat × GlitchBuild.MagInternalData)
    (p cur : I2cBuff × UnitConversionMode)
    (hnear : ¬ far (decoded cur.1) (decoded p.1)) :
    rawOf (tick hdr (tick hdr st p).1 cur).2 = decoded p.1 ∧
    rawOf (tick hdr (tick hdr st p).1 cur).1.2.prev_data = decoded p.1 := by
  obtain ⟨t1, t2⟩ := tick_state hdr st p
  obtain ⟨q1, -, q3⟩ := near_step hdr _ (decoded p.1) t1 t2 cur hnear
  exact ⟨q1, q3⟩

/-- C5 (amended) at first tick (0,0,0), second tick (10,0,0): (0,0,0) is returned. -/
theorem C5_in_threshold_witness :
    decoded buf_0_0_0 = (0, 0, 0) ∧
    rawOf (tick exampleHeader (tick exampleHeader (1, freshMag) (buf_0_0_0, .ConvertToNone)).1
      (buf_10_0_0, .ConvertToNone)).2 = decoded buf_0_0_0 ∧
    rawOf (tick exampleHeader (tick exampleHeader (1, freshMag) (buf_0_0_0, .ConvertToNone)).1
      (buf_10_0_0, .ConvertToNone)).1.2.prev_data = decoded buf_0_0_0 :=
  ⟨by decide,
    C5_in_threshold_returns_previous exampleHeader (1, freshMag) (buf_0_0_0, .ConvertToNone)
      (buf_10_0_0, .ConvertToNone) (by decide)⟩

end GlitchClaims

/-! ### Rounding error -/

theorem roundHalfEven_err (y : ℚ) : |(roundHalfEven y : ℚ) - y| ≤ 1 / 2 := by
  have h1 : (⌊y⌋ : ℚ) ≤ y := Int.floor_le y
  have h2 : y < (⌊y⌋ : ℚ) + 1 := Int.lt_floor_add_one y
  unfold roundHalfEven
  rw [abs_le]
  split_ifs with a b c
  · constructor <;> linarith
  · push_cast
    constructor <;> linarith
  · constructor <;> linarith
  · push_cast
    constructor <;> linarith

theorem roundToPrec_err (p : Nat) (x : ℚ) : |roundToPrec p x - x| ≤ |x| / 2 ^ p := by
  unfold roundToPrec
  split_ifs with hx
  · simp [hx]
  · have hpos : (0 : ℚ) < |x| := abs_pos.mpr hx
    have hu : (0 : ℚ) < (2 : ℚ) ^ (Int.log 2 |x| - ((p : Int) - 1)) := zpow_pos (by norm_num) _
    have hlog : (2 : ℚ) ^ Int.log 2 |x| ≤ |x| := by
      have := Int.zpow_log_le_self (b := 2) (r := |x|) (by norm_num) hpos
      simpa using this
    have hsplit : (2 : ℚ) ^ (Int.log 2 |x| - ((p : Int) - 1)) =
        (2 : ℚ) ^ Int.log 2 |x| * 2 / 2 ^ p := by
      rw [zpow_sub₀ (by norm_num), zpow_sub₀ (by norm_num), zpow_natCast, zpow_one]
      field_simp
    have herr := roundHalfEven_err (x / (2 : ℚ) ^ (Int.log 2 |x| - ((p : Int) - 1)))
    have e : (roundHalfEven (x / (2 : ℚ) ^ (Int.log 2 |x| - ((p : Int) - 1))) : ℚ) *
          (2 : ℚ) ^ (Int.log 2 |x| - ((p : Int) - 1)) - x =
        ((roundHalfEven (x / (2 : ℚ) ^ (Int.log 2 |x| - ((p : Int) - 1))) : ℚ) -
          x / (2 : ℚ) ^ (Int.log 2 |x| - ((p : Int) - 1))) *
          (2 : ℚ) ^ (Int.log 2 |x| - ((p : Int) - 1)) := by
      field_simp
    rw [e, abs_mul, abs_of_pos hu]
    have hp2 : (0 : ℚ) < 2 ^ p := by positivity
    calc _ ≤ 1 / 2 * (2 : ℚ) ^ (Int.log 2 |x| - ((p : Int) - 1)) :=
          mul_le_mul_of_nonneg_right herr hu.le
      _ = (2 : ℚ) ^ Int.log 2 |x| / 2 ^ p := by rw [hsplit]; ring
      _ ≤ |x| / 2 ^ p := div_le_div_of_nonneg_right hlog hp2.le

theorem macroPrec_ge (hdr : Header) : (2 : ℚ) ^ 24 ≤ 2 ^ hdr.macroPrec := by
  unfold Header.macroPrec
  split_ifs <;> norm_num

/-- Two successive roundings (to the constant's type, then to `float`) move a value by at most
`2^-22` of its magnitude. -/
theorem round_twice_err (hdr : Header) (x : ℚ) :
    |roundToPrec 24 (roundToPrec hdr.macroPrec x) - x| ≤ |x| / 2 ^ 22 := by
  have h1 := roundToPrec_err hdr.macroPrec x
  have h2 := roundToPrec_err 24 (roundToPrec hdr.macroPrec x)
  have hx : (0 : ℚ) ≤ |x| := abs_nonneg x
  have h1' : |roundToPrec hdr.macroPrec x - x| ≤ |x| / 2 ^ 24 :=
    h1.trans (div_le_div_of_nonneg_left hx (by norm_num) (macroPrec_ge hdr))
  have hy : |roundToPrec hdr.macroPrec x| ≤ |x| + |x| / 2 ^ 24 := by
    have := abs_sub_abs_le_abs_sub (roundToPrec hdr.macroPrec x) x
    linarith
  have h2' : |roundToPrec 24 (roundToPrec hdr.macroPrec x) - roundToPrec hdr.macroPrec x| ≤
      (|x| + |x| / 2 ^ 24) / 2 ^ 24 :=
    h2.trans (div_le_div_of_nonneg_right hy (by norm_num))
  have tri := abs_sub_le (roundToPrec 24 (roundToPrec hdr.macroPrec x))
    (roundToPrec hdr.macroPrec x) x
  have : (|x| + |x| / 2 ^ 24) / 2 ^ 24 + |x| / 2 ^ 24 ≤ |x| / 2 ^ 22 := by
    have e : |x| / 2 ^ 22 - ((|x| + |x| / 2 ^ 24) / 2 ^ 24 + |x| / 2 ^ 24) =
        |x| * (1 / 2 ^ 22 - (1 + 1 / 2 ^ 24) / 2 ^ 24 - 1 / 2 ^ 24) := by ring
    have : (0 : ℚ) ≤ 1 / 2 ^ 22 - (1 + 1 / 2 ^ 24) / 2 ^ 24 - 1 / 2 ^ 24 := by norm_num
    nlinarith [mul_nonneg hx this]
  linarith

theorem roundf_of_near (q : ℚ) (r : Int) (h : |q - r| < 1 / 2) : roundf q = r := by
  rw [abs_lt] at h
  unfold roundf
  split_ifs
  · rw [Int.floor_eq_iff]
    constructor <;> linarith [h.1, h.2]
  · rw [neg_eq_iff_eq_neg, Int.floor_eq_iff]
    push_cast
    constructor <;> linarith [h.1, h.2]

/-- C6: for every integer `r` in `[-2048, 2047]` and every non-zero Teslas scale constant,
`mag_LSM303AGR_ConvertTeslasToRaw (mag_LSM303AGR_ConvertRawToTeslas r)` is `r`: the product,
rounded to the constant's type and then to `float`, divided by the same constant with the same
roundings, lies within 1/2 of `r`, so `roundf` returns `r`, which fits `int16_t`. -/
theorem C6_teslas_roundtrip (hdr : Header) (hc : hdr.MAG_CONVERSION_FACTOR_RAW_TO_TESLAS ≠ 0) (r : Int)
    (hr : -2048 ≤ r ∧ r ≤ 2047) :
    mag_LSM303AGR_ConvertTeslasToRaw hdr (mag_LSM303AGR_ConvertRawToTeslas hdr r) = some r := by
  unfold mag_LSM303AGR_ConvertTeslasToRaw mag_LSM303AGR_ConvertRawToTeslas
  set c := hdr.MAG_CONVERSION_FACTOR_RAW_TO_TESLAS with hcdef
  set t := roundToPrec 24 (roundToPrec hdr.macroPrec ((r : ℚ) * c)) with ht
  have hcpos : (0 : ℚ) < |c| := abs_pos.mpr hc
  have hrabs : |(r : ℚ)| ≤ 2048 := by
    rw [abs_le]
    constructor
    · exact_mod_cast hr.1
    · have : r ≤ 2048 := by omega
      exact_mod_cast this
  have e1 : |t - (r : ℚ) * c| ≤ |(r : ℚ) * c| / 2 ^ 22 := round_twice_err hdr _
  have e2 : |t / c - r| ≤ |(r : ℚ)| / 2 ^ 22 := by
    have : t / c - r = (t - (r : ℚ) * c) / c := by field_simp; ring
    rw [this, abs_div, div_le_iff₀ hcpos]
    calc |t - (r : ℚ) * c| ≤ |(r : ℚ) * c| / 2 ^ 22 := e1
      _ = |(r : ℚ)| / 2 ^ 22 * |c| := by rw [abs_mul]; ring
  have e3 : |t / c| ≤ |(r : ℚ)| + |(r : ℚ)| / 2 ^ 22 := by
    have := abs_sub_abs_le_abs_sub (t / c) (r : ℚ)
    linarith
  have e4 := round_twice_err hdr (t / c)
  have e5 : |roundToPrec 24 (roundToPrec hdr.macroPrec (t / c)) - r| < 1 / 2 := by
    have tri := abs_sub_le (roundToPrec 24 (roundToPrec hdr.macroPrec (t / c))) (t / c) (r : ℚ)
    have b1 : |t / c| / 2 ^ 22 ≤ (|(r : ℚ)| + |(r : ℚ)| / 2 ^ 22) / 2 ^ 22 :=
      div_le_div_of_nonneg_right e3 (by norm_num)
    have b2 : (|(r : ℚ)| + |(r : ℚ)| / 2 ^ 22) / 2 ^ 22 + |(r : ℚ)| / 2 ^ 22 ≤
        (2048 + 2048 / 2 ^ 22) / 2 ^ 22 + 2048 / 2 ^ 22 := by
      have : (|(r : ℚ)| + |(r : ℚ)| / 2 ^ 22) / 2 ^ 22 + |(r : ℚ)| / 2 ^ 22 =
          |(r : ℚ)| * ((1 + 1 / 2 ^ 22) / 2 ^ 22 + 1 / 2 ^ 22) := by ring
      rw [this]
      have : ((2048 : ℚ) + 2048 / 2 ^ 22) / 2 ^ 22 + 2048 / 2 ^ 22 =
          2048 * ((1 + 1 / 2 ^ 22) / 2 ^ 22 + 1 / 2 ^ 22) := by ring
      rw [this]
      exact mul_le_mul_of_nonneg_right hrabs (by norm_num)
    have b3 : ((2048 : ℚ) + 2048 / 2 ^ 22) / 2 ^ 22 + 2048 / 2 ^ 22 < 1 / 2 := by norm_num
    linarith
  rw [roundf_of_near _ r e5]
  unfold floatToInt16
  rw [if_pos]
  omega

/-- C6 at `r = 2047` with the constant 73e-9. -/
theorem C6_teslas_roundtrip_witness :
    exampleHeader.MAG_CONVERSION_FACTOR_RAW_TO_TESLAS ≠ 0 ∧
    ((-2048 : Int) ≤ 2047 ∧ (2047 : Int) ≤ 2047) ∧
    mag_LSM303AGR_ConvertTeslasToRaw exampleHeader
      (mag_LSM303AGR_ConvertRawToTeslas exampleHeader 2047) = some 2047 :=
  ⟨by norm_num [exampleHeader], by decide,
    C6_teslas_roundtrip exampleHeader (by norm_num [exampleHeader]) 2047 (by decide)⟩

/-! ## Conversion mode `ConvertToNone`, calibration buffers, decoding, validity flag -/

/-- C7, as stated, fails: a freshly registered slot (build without the glitch filter) reading
raw (10, 20, 30) with `ConvertToNone` returns converted (0, 0, 0), not (10, 20, 30). -/
theorem C7_counterexample :
    (CalibrationBuild.mag_LSM303AGR_ReadXYZData exampleHeader CalibrationBuild.freshMag
      buf_10_20_30 .ConvertToNone).2.rawX = 10 ∧
    (CalibrationBuild.mag_LSM303AGR_ReadXYZData exampleHeader CalibrationBuild.freshMag
      buf_10_20_30 .ConvertToNone).2.rawY = 20 ∧
    (CalibrationBuild.mag_LSM303AGR_ReadXYZData exampleHeader CalibrationBuild.freshMag
      buf_10_20_30 .ConvertToNone).2.rawZ = 30 ∧
    (CalibrationBuild.mag_LSM303AGR_ReadXYZData exampleHeader CalibrationBuild.freshMag
      buf_10_20_30 .ConvertToNone).2.convertedX = 0 ∧
    (CalibrationBuild.mag_LSM303AGR_ReadXYZData exampleHeader CalibrationBuild.freshMag
      buf_10_20_30 .ConvertToNone).2.convertedY = 0 ∧
    (CalibrationBuild.mag_LSM303AGR_ReadXYZData exampleHeader CalibrationBuild.freshMag
      buf_10_20_30 .ConvertToNone).2.convertedZ = 0 ∧
    ¬ ((CalibrationBuild.mag_LSM303AGR_ReadXYZData exampleHeader CalibrationBuild.freshMag
        buf_10_20_30 .ConvertToNone).2.convertedX =
      (((CalibrationBuild.mag_LSM303AGR_ReadXYZData exampleHeader CalibrationBuild.freshMag
        buf_10_20_30 .ConvertToNone).2.rawX : Int) : ℚ)) := by
  have hx : (CalibrationBuild.mag_LSM303AGR_ReadXYZData exampleHeader CalibrationBuild.freshMag
      buf_10_20_30 .ConvertToNone).2.rawX = 10 := by decide
  have hc : (CalibrationBuild.mag_LSM303AGR_ReadXYZData exampleHeader CalibrationBuild.freshMag
      buf_10_20_30 .ConvertToNone).2.convertedX = 0 := rfl
  refine ⟨hx, by decide, by decide, hc, rfl, rfl, ?_⟩
  rw [hx, hc]
  norm_num

/-- C7 (amended): a read with `ConvertToNone` returns a record whose `convertedX/Y/Z` are the
values that record held before the call (0 on a freshly registered slot), whatever the raw
input — `data` in the build without the glitch filter, `prev_data` in the glitch-filter
build. -/
theorem C7_none_leaves_converted (hdr : Header) (buf : I2cBuff) :
    (∀ m : CalibrationBuild.MagInternalData,
      (CalibrationBuild.mag_LSM303AGR_ReadXYZData hdr m buf .ConvertToNone).2.convertedX =
        m.data.convertedX ∧
      (CalibrationBuild.mag_LSM303AGR_ReadXYZData hdr m buf .ConvertToNone).2.convertedY =
        m.data.convertedY ∧
      (CalibrationBuild.mag_LSM303AGR_ReadXYZData hdr m buf .ConvertToNone).2.convertedZ =
        m.data.convertedZ) ∧
    (∀ (first_read : Nat) (m : GlitchBuild.MagInternalData),
      (GlitchBuild.mag_LSM303AGR_ReadXYZData hdr first_read m buf .ConvertToNone).2.convertedX =
        m.prev_data.convertedX ∧
      (GlitchBuild.mag_LSM303AGR_ReadXYZData hdr first_read m buf .ConvertToNone).2.convertedY =
        m.prev_data.convertedY ∧
      (GlitchBuild.mag_LSM303AGR_ReadXYZData hdr first_read m buf .ConvertToNone).2.convertedZ =
        m.prev_data.convertedZ) := by
  constructor
  · intro m
    exact ⟨rfl, rfl, rfl⟩
  · intro first_read m
    simp only [GlitchBuild.mag_LSM303AGR_ReadXYZData, GlitchBuild.convertPrev, conversionFactor,
      GlitchBuild.glitchDecide, GlitchBuild.firstReadInit, GlitchBuild.decodeInto,
      GlitchBuild.shiftHistory]
    split_ifs <;> exact ⟨rfl, rfl, rfl⟩

/-- A read in the build without the glitch filter leaves the calibration fields alone. -/
theorem read_keeps_calibration (hdr : Header) (m : CalibrationBuild.MagInternalData)
    (buf : I2cBuff) (mode : UnitConversionMode) :
    (CalibrationBuild.mag_LSM303AGR_ReadXYZData hdr m buf mode).1.calibration_x =
      m.calibration_x ∧
    (CalibrationBuild.mag_LSM303AGR_ReadXYZData hdr m buf mode).1.calibration_y =
      m.calibration_y ∧
    (CalibrationBuild.mag_LSM303AGR_ReadXYZData hdr m buf mode).1.calibration_z =
      m.calibration_z ∧
    (CalibrationBuild.mag_LSM303AGR_ReadXYZData hdr m buf mode).1.curr_calibration_index =
      m.curr_calibration_index ∧
    (CalibrationBuild.mag_LSM303AGR_ReadXYZData hdr m buf mode).1.operation_mode =
      m.operation_mode := by
  unfold CalibrationBuild.mag_LSM303AGR_ReadXYZData
  cases conversionFactor hdr mode <;> exact ⟨rfl, rfl, rfl, rfl, rfl⟩

/-- C8, as stated, fails: after samples 1..6 on a freshly registered slot, sample 6 (raw
(6, 6, 6)) is not at index 0 of the calibration buffers, which still hold 0 there, and
`curr_calibration_index` is 0, not (6 - 5) mod 15 = 1. -/
theorem C8_counterexample :
    (CalibrationBuild.samplesUpTo 6).length = 6 ∧
    (CalibrationBuild.samplesUpTo 6).getLast? = some (CalibrationBuild.sampleBuf 6) ∧
    GlitchBuild.decoded (CalibrationBuild.sampleBuf 6) = (6, 6, 6) ∧
    (CalibrationBuild.feed exampleHeader CalibrationBuild.freshMag .ConvertToNone
      (CalibrationBuild.samplesUpTo 6)).calibration_x[0]? = some 0 ∧
    (CalibrationBuild.feed exampleHeader CalibrationBuild.freshMag .ConvertToNone
      (CalibrationBuild.samplesUpTo 6)).calibration_y[0]? = some 0 ∧
    (CalibrationBuild.feed exampleHeader CalibrationBuild.freshMag .ConvertToNone
      (CalibrationBuild.samplesUpTo 6)).calibration_z[0]? = some 0 ∧
    (CalibrationBuild.feed exampleHeader CalibrationBuild.freshMag .ConvertToNone
      (CalibrationBuild.samplesUpTo 6)).curr_calibration_index = 0 ∧
    ¬ (CalibrationBuild.feed exampleHeader CalibrationBuild.freshMag .ConvertToNone
      (CalibrationBuild.samplesUpTo 6)).curr_calibration_index = (6 - 5) % 15 := by
  decide

/-- C8 (amended): feeding any number of consecutive raw samples to a slot, no sample — among
the first five or later — is written to a calibration buffer or advances
`curr_calibration_index`: the three buffers and the index are as before the first sample, so
on a freshly registered slot the buffers stay all zero and the index stays 0. -/
theorem C8_samples_never_accumulated (hdr : Header) (mode : UnitConversionMode)
    (samples : List I2cBuff) :
    (∀ m : CalibrationBuild.MagInternalData,
      (CalibrationBuild.feed hdr m mode samples).calibration_x = m.calibration_x ∧
      (CalibrationBuild.feed hdr m mode samples).calibration_y = m.calibration_y ∧
      (CalibrationBuild.feed hdr m mode samples).calibration_z = m.calibration_z ∧
      (CalibrationBuild.feed hdr m mode samples).curr_calibration_index =
        m.curr_calibration_index) ∧
    (CalibrationBuild.feed hdr CalibrationBuild.freshMag mode samples).calibration_x =
      List.replicate 15 0 ∧
    (CalibrationBuild.feed hdr CalibrationBuild.freshMag mode samples).calibration_y =
      List.replicate 15 0 ∧
    (CalibrationBuild.feed hdr CalibrationBuild.freshMag mode samples).calibration_z =
      List.replicate 15 0 ∧
    (CalibrationBuild.feed hdr CalibrationBuild.freshMag mode samples).curr_calibration_index
      = 0 := by
  have gen : ∀ m : CalibrationBuild.MagInternalData,
      (CalibrationBuild.feed hdr m mode samples).calibration_x = m.calibration_x ∧
      (CalibrationBuild.feed hdr m mode samples).calibration_y = m.calibration_y ∧
      (CalibrationBuild.feed hdr m mode samples).calibration_z = m.calibration_z ∧
      (CalibrationBuild.feed hdr m mode samples).curr_calibration_index =
        m.curr_calibration_index := by
    induction samples with
    | nil => intro m; exact ⟨rfl, rfl, rfl, rfl⟩
    | cons b rest ih =>
      intro m
      obtain ⟨k1, k2, k3, k4, -⟩ := read_keeps_calibration hdr m b mode
      obtain ⟨i1, i2, i3, i4⟩ :=
        ih (CalibrationBuild.mag_LSM303AGR_ReadXYZData hdr m b mode).1
      simp only [CalibrationBuild.feed, List.foldl_cons] at i1 i2 i3 i4 ⊢
      exact ⟨i1.trans k1, i2.trans k2, i3.trans k3, i4.trans k4⟩
  obtain ⟨f1, f2, f3, f4⟩ := gen CalibrationBuild.freshMag
  exact ⟨gen, f1, f2, f3, f4⟩

/-- C9: each decoded axis is the two's-complement 16-bit value of `hi * 256 + lo`; the byte
pairs `(b0,b1), (b2,b3), (b4,b5)` go to `rawX, rawZ, rawY` on the HMC5883L (in both of its
builds) and to `rawX, rawY, rawZ` on the LSM303AGR; and in the HMC5883L build without the
glitch filter the returned record's raw triple is this decoded triple on every read, whatever
the slot held and whatever the mode. -/
theorem C9_axis_decoding (buf : I2cBuff) :
    (∀ hi lo : Fin 256,
      decodeAxis hi lo =
        if hi.val * 256 + lo.val < 32768 then ((hi.val * 256 + lo.val : Nat) : Int)
        else ((hi.val * 256 + lo.val : Nat) : Int) - 65536) ∧
    (∀ (hdr : Header) (m : CalibrationBuild.MagInternalData) (mode : UnitConversionMode),
      (CalibrationBuild.mag_LSM303AGR_ReadXYZData hdr m buf mode).2.rawX =
        decodeAxis buf.b0 buf.b1 ∧
      (CalibrationBuild.mag_LSM303AGR_ReadXYZData hdr m buf mode).2.rawZ =
        decodeAxis buf.b2 buf.b3 ∧
      (CalibrationBuild.mag_LSM303AGR_ReadXYZData hdr m buf mode).2.rawY =
        decodeAxis buf.b4 buf.b5) ∧
    (∀ (m : GlitchBuild.MagInternalData) (mode : UnitConversionMode),
      (GlitchBuild.decodeInto m buf mode).data.rawX = decodeAxis buf.b0 buf.b1 ∧
      (GlitchBuild.decodeInto m buf mode).data.rawZ = decodeAxis buf.b2 buf.b3 ∧
      (GlitchBuild.decodeInto m buf mode).data.rawY = decodeAxis buf.b4 buf.b5) ∧
    (∀ mdata : MagnetometerData,
      (LSM303AGRBuild.mag_LSM303AGR_ReadXYZData mdata buf).1.rawX = decodeAxis buf.b0 buf.b1 ∧
      (LSM303AGRBuild.mag_LSM303AGR_ReadXYZData mdata buf).1.rawY = decodeAxis buf.b2 buf.b3 ∧
      (LSM303AGRBuild.mag_LSM303AGR_ReadXYZData mdata buf).1.rawZ = decodeAxis buf.b4 buf.b5) := by
  refine ⟨?_, ?_, ?_, ?_⟩
  · intro hi lo
    rw [decodeAxis_eq]
    have h1 := hi.isLt
    have h2 := lo.isLt
    push_cast
    split_ifs <;> omega
  · intro hdr m mode
    unfold CalibrationBuild.mag_LSM303AGR_ReadXYZData
    cases conversionFactor hdr mode <;> exact ⟨rfl, rfl, rfl⟩
  · intro m mode
    exact ⟨rfl, rfl, rfl⟩
  · intro mdata
    exact ⟨rfl, rfl, rfl⟩

/-- C10 at the failing input: a freshly registered slot reading raw (0, 0, 0) with
`ConvertToNone` returns `isValid = 0` although the validity check on the returned record gives
1 — in the build without the glitch filter and in the glitch-filter build alike. -/
theorem C10_isValid_stale_with_none :
    (CalibrationBuild.mag_LSM303AGR_ReadXYZData exampleHeader CalibrationBuild.freshMag
      buf_0_0_0 .ConvertToNone).2.isValid = 0 ∧
    mag_LSM303AGR_is_reading_valid
      (CalibrationBuild.mag_LSM303AGR_ReadXYZData exampleHeader CalibrationBuild.freshMag
        buf_0_0_0 .ConvertToNone).2 = 1 ∧
    (GlitchBuild.mag_LSM303AGR_ReadXYZData exampleHeader 1 GlitchBuild.freshMag
      buf_0_0_0 .ConvertToNone).2.isValid = 0 ∧
    mag_LSM303AGR_is_reading_valid
      (GlitchBuild.mag_LSM303AGR_ReadXYZData exampleHeader 1 GlitchBuild.freshMag
        buf_0_0_0 .ConvertToNone).2 = 1 := by
  decide

/-- In every mode other than `ConvertToNone` the flag is the validity check of the returned
record, in both builds. -/
theorem isValid_when_converting (hdr : Header) (buf : I2cBuff) (mode : UnitConversionMode)
    (hmode : mode ≠ .ConvertToNone) :
    (∀ m : CalibrationBuild.MagInternalData,
      (CalibrationBuild.mag_LSM303AGR_ReadXYZData hdr m buf mode).2.isValid =
        mag_LSM303AGR_is_reading_valid
          (CalibrationBuild.mag_LSM303AGR_ReadXYZData hdr m buf mode).2) ∧
    (∀ (first_read : Nat) (m : GlitchBuild.MagInternalData),
      (GlitchBuild.mag_LSM303AGR_ReadXYZData hdr first_read m buf mode).2.isValid =
        mag_LSM303AGR_is_reading_valid
          (GlitchBuild.mag_LSM303AGR_ReadXYZData hdr first_read m buf mode).2) := by
  constructor
  · intro m
    cases mode <;> first | exact absurd rfl hmode | rfl
  · intro first_read m
    cases mode <;> first | exact absurd rfl hmode | rfl

/-! ## Device registry: claims -/

/-- C12: registration appends at the next free slot.  From `numRegistered = 0` the first call
returns handle 0 and the second handle 1; call `k` stores the device reference and the
calibration factors 1 in slot `k-1`, raises `numRegistered` by exactly 1 and leaves the other
slot as it was; the two handles differ — in both builds. -/
theorem C12_registration_appends (first_read hA hB : Nat)
    (s0 s1 : GlitchBuild.MagInternalData) (c0 c1 : CalibrationBuild.MagInternalData) :
    (GlitchBuild.mag_LSM303AGR_init ⟨first_read, [s0, s1], 0⟩ hA =
        some ⟨0, ⟨first_read, [GlitchBuild.initSlot s0 hA, s1], 1⟩⟩ ∧
      GlitchBuild.mag_LSM303AGR_init ⟨first_read, [GlitchBuild.initSlot s0 hA, s1], 1⟩ hB =
        some ⟨1, ⟨first_read, [GlitchBuild.initSlot s0 hA, GlitchBuild.initSlot s1 hB], 2⟩⟩ ∧
      (GlitchBuild.mag_LSM303AGR_init ⟨first_read, [s0, s1], 0⟩ hA).bind
          (fun r => GlitchBuild.mag_LSM303AGR_init r.driver hB) =
        some ⟨1, ⟨first_read, [GlitchBuild.initSlot s0 hA, GlitchBuild.initSlot s1 hB], 2⟩⟩ ∧
      (GlitchBuild.mag_LSM303AGR_init ⟨first_read, [s0, s1], 0⟩ hA).map (fun r => r.handle) ≠
        ((GlitchBuild.mag_LSM303AGR_init ⟨first_read, [s0, s1], 0⟩ hA).bind
          (fun r => GlitchBuild.mag_LSM303AGR_init r.driver hB)).map (fun r => r.handle)) ∧
    ((GlitchBuild.initSlot s0 hA).hSensor = hA ∧
      (GlitchBuild.initSlot s0 hA).data.calibration_factor_x = 1 ∧
      (GlitchBuild.initSlot s0 hA).data.calibration_factor_y = 1 ∧
      (GlitchBuild.initSlot s0 hA).data.calibration_factor_z = 1) ∧
    (CalibrationBuild.mag_LSM303AGR_init ⟨[c0, c1], 0⟩ hA =
        some ⟨0, ⟨[CalibrationBuild.initSlot c0 hA, c1], 1⟩⟩ ∧
      CalibrationBuild.mag_LSM303AGR_init ⟨[CalibrationBuild.initSlot c0 hA, c1], 1⟩ hB =
        some ⟨1, ⟨[CalibrationBuild.initSlot c0 hA, CalibrationBuild.initSlot c1 hB], 2⟩⟩ ∧
      (CalibrationBuild.mag_LSM303AGR_init ⟨[c0, c1], 0⟩ hA).bind
          (fun r => CalibrationBuild.mag_LSM303AGR_init r.driver hB) =
        some ⟨1, ⟨[CalibrationBuild.initSlot c0 hA, CalibrationBuild.initSlot c1 hB], 2⟩⟩ ∧
      (CalibrationBuild.mag_LSM303AGR_init ⟨[c0, c1], 0⟩ hA).map (fun r => r.handle) ≠
        ((CalibrationBuild.mag_LSM303AGR_init ⟨[c0, c1], 0⟩ hA).bind
          (fun r => CalibrationBuild.mag_LSM303AGR_init r.driver hB)).map
            (fun r => r.handle)) ∧
    ((CalibrationBuild.initSlot c0 hA).hSensor = hA ∧
      (CalibrationBuild.initSlot c0 hA).data.calibration_factor_x = 1 ∧
      (CalibrationBuild.initSlot c0 hA).data.calibration_factor_y = 1 ∧
      (CalibrationBuild.initSlot c0 hA).data.calibration_factor_z = 1) := by
  refine ⟨⟨rfl, rfl, rfl, ?_⟩, ⟨rfl, rfl, rfl, rfl⟩, ⟨rfl, rfl, rfl, ?_⟩, ⟨rfl, rfl, rfl, rfl⟩⟩
  · show (some 0 : Option Nat) ≠ some 1
    decide
  · show (some 0 : Option Nat) ≠ some 1
    decide

/-- C13 at the failing input: two registered handles A = 0 and B = 1 from program start.  B's
first read, of raw (10, 20, 30), returns (10, 20, 30) when nothing was read before, and
(0, 0, 0) when A has been read once: A's read cleared the shared `first_read`, so B's read
skips the first-read seeding and returns B's zero-initialised previous record. -/
theorem C13_second_handle_first_read :
    (GlitchBuild.mag_LSM303AGR_init (GlitchBuild.Driver.start .ConvertToNone) 7).map
      (fun r => r.handle) = some 0 ∧
    ((GlitchBuild.mag_LSM303AGR_init (GlitchBuild.Driver.start .ConvertToNone) 7).bind
      (fun rA => GlitchBuild.mag_LSM303AGR_init rA.driver 8)).map (fun r => r.handle)
      = some 1 ∧
    (GlitchBuild.twoRegistered.bind
      (fun d => GlitchBuild.readHandle exampleHeader d 1 buf_10_20_30 .ConvertToNone)).map
      (fun r => GlitchBuild.rawOf r.2) = some (10, 20, 30) ∧
    ((GlitchBuild.twoRegistered.bind
      (fun d => GlitchBuild.readHandle exampleHeader d 0 buf_0_0_0 .ConvertToNone)).bind
      (fun r => GlitchBuild.readHandle exampleHeader r.1 1 buf_10_20_30 .ConvertToNone)).map
      (fun r => GlitchBuild.rawOf r.2) = some (0, 0, 0) ∧
    (GlitchBuild.twoRegistered.bind
      (fun d => GlitchBuild.readHandle exampleHeader d 0 buf_0_0_0 .ConvertToNone)).map
      (fun r => r.1.first_read) = some 0 := by
  decide

/-- A read on one handle leaves the slot of every other handle as it was; only `first_read`
is shared. -/
theorem readHandle_other_slot (hdr : Header) (d : GlitchBuild.Driver) (h h' : Nat)
    (hne : h ≠ h') (buf : I2cBuff) (c : UnitConversionMode)
    (r : GlitchBuild.Driver × MagnetometerData)
    (hr : GlitchBuild.readHandle hdr d h buf c = some r) :
    r.1.mags[h']? = d.mags[h']? := by
  unfold GlitchBuild.readHandle at hr
  split at hr
  · cases hr
    exact List.getElem?_set_ne hne
  · cases hr

/-! ## Calibration fields: invariant -/

/-- Every slot keeps its calibration fields across one call, and the array its length. -/
theorem call_keeps_calibration (hdr : Header) (d : CalibrationBuild.Driver)
    (c : CalibrationBuild.Call)
    (hlen : d.mags.length = MAX_NUM_MAGNETOMETERS)
    (hok : ∀ m ∈ d.mags, CalibrationBuild.calibrationOk m) :
    (CalibrationBuild.Driver.call hdr d c).mags.length = MAX_NUM_MAGNETOMETERS ∧
    ∀ m ∈ (CalibrationBuild.Driver.call hdr d c).mags, CalibrationBuild.calibrationOk m := by
  cases c with
  | register hSensor stray =>
    cases hm0 : d.mags[d.numRegistered]? with
    | none =>
      simp only [CalibrationBuild.Driver.call, CalibrationBuild.mag_LSM303AGR_init, hm0]
      exact ⟨hlen, hok⟩
    | some m0 =>
      simp only [CalibrationBuild.Driver.call, CalibrationBuild.mag_LSM303AGR_init, hm0]
      refine ⟨by rw [List.length_set]; exact hlen, ?_⟩
      intro m hm
      rcases List.mem_or_eq_of_mem_set hm with h | h
      · exact hok m h
      · rw [h]
        exact hok m0 (List.getElem?_mem hm0)
  | configure handle => exact ⟨hlen, hok⟩
  | acquire handle buf mode stray =>
    cases hm0 : d.mags[handle]? with
    | none =>
      simp only [CalibrationBuild.Driver.call, CalibrationBuild.readHandle, hm0]
      exact ⟨hlen, hok⟩
    | some m0 =>
      simp only [CalibrationBuild.Driver.call, CalibrationBuild.readHandle, hm0]
      refine ⟨by rw [List.length_set]; exact hlen, ?_⟩
      intro m hm
      rcases List.mem_or_eq_of_mem_set hm with h | h
      · exact hok m h
      · obtain ⟨k1, k2, k3, k4, -⟩ := read_keeps_calibration hdr m0 buf mode
        have h0 := hok m0 (List.getElem?_mem hm0)
        rw [h]
        unfold CalibrationBuild.calibrationOk at h0 ⊢
        rw [k1, k2, k3, k4]
        exact h0

/-- C14: in every state reached from program start by any sequence of registration,
configuration and acquire calls, `mags` still has its two slots and every slot has
`curr_calibration_index` in `[0, 15)` and three calibration buffers of 15 entries. -/
theorem C14_calibration_index_in_range (hdr : Header) (mode0 : UnitConversionMode)
    (cs : List CalibrationBuild.Call) :
    (CalibrationBuild.Driver.calls hdr (CalibrationBuild.Driver.start mode0) cs).mags.length
      = 2 ∧
    ∀ m ∈ (CalibrationBuild.Driver.calls hdr (CalibrationBuild.Driver.start mode0) cs).mags,
      0 ≤ m.curr_calibration_index ∧ m.curr_calibration_index < 15 ∧
      m.calibration_x.length = 15 ∧ m.calibration_y.length = 15 ∧
      m.calibration_z.length = 15 := by
  have gen : ∀ (l : List CalibrationBuild.Call) (d : CalibrationBuild.Driver),
      d.mags.length = MAX_NUM_MAGNETOMETERS →
      (∀ m ∈ d.mags, CalibrationBuild.calibrationOk m) →
      (CalibrationBuild.Driver.calls hdr d l).mags.length = MAX_NUM_MAGNETOMETERS ∧
      ∀ m ∈ (CalibrationBuild.Driver.calls hdr d l).mags, CalibrationBuild.calibrationOk m := by
    intro l
    induction l with
    | nil => intro d h1 h2; exact ⟨h1, h2⟩
    | cons c rest ih =>
      intro d h1 h2
      obtain ⟨g1, g2⟩ := call_keeps_calibration hdr d c h1 h2
      exact ih (CalibrationBuild.Driver.call hdr d c) g1 g2
  have hstart : ∀ m ∈ (CalibrationBuild.Driver.start mode0).mags,
      CalibrationBuild.calibrationOk m := by
    intro m hm
    simp only [CalibrationBuild.Driver.start, List.mem_replicate] at hm
    rw [hm.2]
    simp [CalibrationBuild.calibrationOk, CalibrationBuild.zeroMag, MAX_CALIBRATION_SAMPLES]
  obtain ⟨r1, r2⟩ := gen cs (CalibrationBuild.Driver.start mode0)
    (by simp [CalibrationBuild.Driver.start]) hstart
  refine ⟨r1, ?_⟩
  intro m hm
  obtain ⟨q1, q2, q3, q4⟩ := r2 m hm
  exact ⟨Nat.zero_le _, q1, q2, q3, q4⟩

/-! ## Glitch filter: closed form -/

namespace Magnetometer.GlitchBuild

theorem tick_returns_prev (hdr : Header) (st : Nat × MagInternalData)
    (c : I2cBuff × UnitConversionMode) :
    (tick hdr st c).2 = (tick hdr st c).1.2.prev_data := rfl

/-- The first read leaves a state of the kind every later read starts from. -/
theorem first_tick_inv (hdr : Header) (fr : Nat) (hfr : fr ≠ 0) (m : MagInternalData)
    (c : I2cBuff × UnitConversionMode) :
    afterFirstRead (tick hdr (fr, m) c).1 ∧ rawOf (tick hdr (fr, m) c).2 = decoded c.1 ∧
    (tick hdr (fr, m) c).1.2.glitter_count = 0 := by
  obtain ⟨f1, f2, f3, f4, f5, -, -, -⟩ := read_first hdr fr hfr m c.1 c.2
  have e : tick hdr (fr, m) c = mag_LSM303AGR_ReadXYZData hdr fr m c.1 c.2 := rfl
  rw [e]
  refine ⟨⟨f1, ?_, ?_⟩, f2, f5⟩
  · rw [f4]; exact decoded_int16 _
  · rw [f3]; exact decoded_int16 _

/-- A later read in closed form: what is returned, what the counter becomes, and the state
it leaves. -/
theorem tick_closed (hdr : Header) (st : Nat × MagInternalData)
    (c : I2cBuff × UnitConversionMode) (h : afterFirstRead st) :
    rawOf (tick hdr st c).2 =
      (if far (decoded c.1) (rawOf st.2.data) ∧ far (rawOf st.2.data) (rawOf st.2.prev_data)
        then decoded c.1 else rawOf st.2.data) ∧
    (tick hdr st c).1.2.glitter_count =
      (if far (decoded c.1) (rawOf st.2.data) ∧ ¬ far (rawOf st.2.data) (rawOf st.2.prev_data)
        then (st.2.glitter_count + 1) % 65536 else st.2.glitter_count) ∧
    afterFirstRead (tick hdr st c).1 ∧
    rawOf (tick hdr st c).1.2.data = decoded c.1 := by
  obtain ⟨h0, hd, hp⟩ := h
  obtain ⟨t1, t2⟩ := tick_state hdr st c
  have hret := tick_returns_prev hdr st c
  by_cases hf : far (decoded c.1) (rawOf st.2.data)
  · have e := tick_eq hdr st h0 c
    obtain ⟨-, -, -, f4, f5⟩ := read_next_far hdr st.2 c.1 c.2 hd hp hf
    rw [← e] at f4 f5
    by_cases hpf : far (rawOf st.2.prev_data) (rawOf st.2.data)
    · have hpf' : far (rawOf st.2.data) (rawOf st.2.prev_data) := (far_comm _ _).mp hpf
      obtain ⟨g1, g2⟩ := f4 hpf
      refine ⟨?_, ?_, ⟨t1, ?_, ?_⟩, t2⟩
      · rw [g1, if_pos ⟨hf, hpf'⟩]
      · rw [g2, if_neg (fun hh => hh.2 hpf')]
      · rw [t2]; exact decoded_int16 _
      · rw [← hret, g1]; exact decoded_int16 _
    · have hpf' : ¬ far (rawOf st.2.data) (rawOf st.2.prev_data) :=
        fun hh => hpf ((far_comm _ _).mp hh)
      obtain ⟨g1, g2⟩ := f5 hpf
      refine ⟨?_, ?_, ⟨t1, ?_, ?_⟩, t2⟩
      · rw [g1, if_neg (fun hh => hpf' hh.2)]
      · rw [g2, if_pos ⟨hf, hpf'⟩]
      · rw [t2]; exact decoded_int16 _
      · rw [← hret, g1]; exact hd
  · obtain ⟨g1, g2, -⟩ := near_step hdr st (rawOf st.2.data) h0 rfl c hf
    refine ⟨?_, ?_, ⟨t1, ?_, ?_⟩, t2⟩
    · rw [g1, if_neg (fun hh => hf hh.1)]
    · rw [g2, if_neg (fun hh => hf hh.1)]
    · rw [t2]; exact decoded_int16 _
    · rw [← hret, g1]; exact hd

theorem run_inv (hdr : Header) (l : List (I2cBuff × UnitConversionMode)) :
    ∀ st : Nat × MagInternalData, afterFirstRead st → afterFirstRead (run hdr st l) := by
  induction l with
  | nil => intro st h; exact h
  | cons c rest ih =>
    intro st h
    exact ih (tick hdr st c).1 (tick_closed hdr st c h).2.2.1

/-- After at least one read from `first_read` set, the state is of the kind every later read
starts from. -/
theorem run_afterFirstRead (hdr : Header) (fr0 : Nat) (hfr : fr0 ≠ 0) (m0 : MagInternalData)
    (pre : List (I2cBuff × UnitConversionMode)) (p : I2cBuff × UnitConversionMode) :
    afterFirstRead (run hdr (fr0, m0) (pre ++ [p])) := by
  cases pre with
  | nil => exact (first_tick_inv hdr fr0 hfr m0 p).1
  | cons x l => exact run_inv hdr (l ++ [p]) _ (first_tick_inv hdr fr0 hfr m0 x).1

end Magnetometer.GlitchBuild

section GlitchClosedForm

open Magnetometer.GlitchBuild

/-- C15: closed form of the glitch filter's output.  On every tick `n ≥ 2` (input `cur`,
previous input `p`), the returned raw triple is `cur` when `cur` differs from `p` by more than
50 on some axis and `p` differs by more than 50 on some axis from the triple returned at tick
`n-1`; in every other case it is `p`.  So the output is always the current or the immediately
preceding input. -/
theorem C15_closed_form (hdr : Header) (first_read : Nat) (hfr : first_read ≠ 0)
    (m0 : GlitchBuild.MagInternalData) (pre : List (I2cBuff × UnitConversionMode))
    (p cur : I2cBuff × UnitConversionMode) :
    rawOf (tick hdr (run hdr (first_read, m0) (pre ++ [p])) cur).2 =
      (if far (decoded cur.1) (decoded p.1) ∧
          far (decoded p.1) (rawOf (tick hdr (run hdr (first_read, m0) pre) p).2)
        then decoded cur.1 else decoded p.1) ∧
    (rawOf (tick hdr (run hdr (first_read, m0) (pre ++ [p])) cur).2 = decoded cur.1 ∨
      rawOf (tick hdr (run hdr (first_read, m0) (pre ++ [p])) cur).2 = decoded p.1) := by
  have hinv := run_afterFirstRead hdr first_read hfr m0 pre p
  obtain ⟨c1, -, -, -⟩ := tick_closed hdr _ cur hinv
  have hd : rawOf (run hdr (first_read, m0) (pre ++ [p])).2.data = decoded p.1 := by
    rw [run_snoc]
    exact (tick_state hdr _ p).2
  have hp : rawOf (run hdr (first_read, m0) (pre ++ [p])).2.prev_data =
      rawOf (tick hdr (run hdr (first_read, m0) pre) p).2 := by
    rw [run_snoc, tick_returns_prev]
  rw [hd, hp] at c1
  refine ⟨c1, ?_⟩
  rw [c1]
  split_ifs
  · exact Or.inl rfl
  · exact Or.inr rfl

/-- C15 on (0,0,0), (1000,0,0), (0,0,0): the third tick returns its own input. -/
theorem C15_closed_form_witness :
    rawOf (tick exampleHeader (run exampleHeader (1, freshMag)
      ([(buf_0_0_0, .ConvertToNone)] ++ [(buf_1000_0_0, .ConvertToNone)]))
      (buf_0_0_0, .ConvertToNone)).2 = (0, 0, 0) ∧
    (rawOf (tick exampleHeader (run exampleHeader (1, freshMag)
        ([(buf_0_0_0, .ConvertToNone)] ++ [(buf_1000_0_0, .ConvertToNone)]))
        (buf_0_0_0, .ConvertToNone)).2 =
      (if far (decoded buf_0_0_0) (decoded buf_1000_0_0) ∧
          far (decoded buf_1000_0_0)
            (rawOf (tick exampleHeader (run exampleHeader (1, freshMag)
              [(buf_0_0_0, .ConvertToNone)]) (buf_1000_0_0, .ConvertToNone)).2)
        then decoded buf_0_0_0 else decoded buf_1000_0_0) ∧
      (rawOf (tick exampleHeader (run exampleHeader (1, freshMag)
          ([(buf_0_0_0, .ConvertToNone)] ++ [(buf_1000_0_0, .ConvertToNone)]))
          (buf_0_0_0, .ConvertToNone)).2 = decoded buf_0_0_0 ∨
        rawOf (tick exampleHeader (run exampleHeader (1, freshMag)
          ([(buf_0_0_0, .ConvertToNone)] ++ [(buf_1000_0_0, .ConvertToNone)]))
          (buf_0_0_0, .ConvertToNone)).2 = decoded buf_1000_0_0)) :=
  ⟨by decide,
    C15_closed_form exampleHeader 1 (by decide) freshMag [(buf_0_0_0, .ConvertToNone)]
      (buf_1000_0_0, .ConvertToNone) (buf_0_0_0, .ConvertToNone)⟩

end GlitchClosedForm

/-! ## Glitch filter: counter, mode tag, stored differences -/

namespace Magnetometer.GlitchBuild

theorem succ_mod_ne (c : Nat) : ¬ c = (c + 1) % 65536 := by omega

end Magnetometer.GlitchBuild

section GlitchCounter

open Magnetometer.GlitchBuild

/-- C16: the glitch filter never rejects twice in a row.  The first tick leaves
`glitter_count` at 0 (it is set, not incremented); every later tick leaves it unchanged or
raises it by exactly 1 modulo 2^16; and it is never raised on two consecutive ticks. -/
theorem C16_never_rejects_twice (hdr : Header) (first_read : Nat) (hfr : first_read ≠ 0)
    (m0 : GlitchBuild.MagInternalData) (pre : List (I2cBuff × UnitConversionMode))
    (p a b : I2cBuff × UnitConversionMode) :
    (tick hdr (first_read, m0) p).1.2.glitter_count = 0 ∧
    ((tick hdr (run hdr (first_read, m0) (pre ++ [p])) a).1.2.glitter_count =
        (run hdr (first_read, m0) (pre ++ [p])).2.glitter_count ∨
      (tick hdr (run hdr (first_read, m0) (pre ++ [p])) a).1.2.glitter_count =
        ((run hdr (first_read, m0) (pre ++ [p])).2.glitter_count + 1) % 65536) ∧
    ¬ ((tick hdr (run hdr (first_read, m0) (pre ++ [p])) a).1.2.glitter_count =
        ((run hdr (first_read, m0) (pre ++ [p])).2.glitter_count + 1) % 65536 ∧
      (tick hdr (tick hdr (run hdr (first_read, m0) (pre ++ [p])) a).1 b).1.2.glitter_count =
        ((tick hdr (run hdr (first_read, m0) (pre ++ [p])) a).1.2.glitter_count + 1)
          % 65536) := by
  have hinv := run_afterFirstRead hdr first_read hfr m0 pre p
  obtain ⟨r1, c1, i1, d1⟩ := tick_closed hdr _ a hinv
  obtain ⟨-, c2, -, -⟩ := tick_closed hdr _ b i1
  refine ⟨(first_tick_inv hdr first_read hfr m0 p).2.2, ?_, ?_⟩
  · rw [c1]
    split_ifs
    · exact Or.inr rfl
    · exact Or.inl rfl
  · rintro ⟨h1, h2⟩
    by_cases hA : far (decoded a.1) (rawOf (run hdr (first_read, m0) (pre ++ [p])).2.data) ∧
        ¬ far (rawOf (run hdr (first_read, m0) (pre ++ [p])).2.data)
          (rawOf (run hdr (first_read, m0) (pre ++ [p])).2.prev_data)
    · rw [if_neg (fun hh => hA.2 hh.2)] at r1
      rw [← tick_returns_prev, r1, d1] at c2
      rw [if_neg (fun hh => hh.2 hA.1)] at c2
      rw [c2] at h2
      exact succ_mod_ne _ h2
    · rw [if_neg hA] at c1
      rw [c1] at h1
      exact succ_mod_ne _ h1

/-- C16 on (0,0,0), (1000,0,0), (2000,0,0): the second tick counts, the third does not. -/
theorem C16_never_rejects_twice_witness :
    ((tick exampleHeader (run exampleHeader (1, freshMag)
        ([] ++ [(buf_0_0_0, .ConvertToNone)])) (buf_1000_0_0, .ConvertToNone)).1.2.glitter_count
        = 1 ∧
      (tick exampleHeader (tick exampleHeader (run exampleHeader (1, freshMag)
        ([] ++ [(buf_0_0_0, .ConvertToNone)])) (buf_1000_0_0, .ConvertToNone)).1
        (buf_1030_0_0, .ConvertToNone)).1.2.glitter_count = 1) ∧
    ((tick exampleHeader (1, freshMag) (buf_0_0_0, .ConvertToNone)).1.2.glitter_count = 0 ∧
      ((tick exampleHeader (run exampleHeader (1, freshMag)
          ([] ++ [(buf_0_0_0, .ConvertToNone)]))
          (buf_1000_0_0, .ConvertToNone)).1.2.glitter_count =
          (run exampleHeader (1, freshMag)
            ([] ++ [(buf_0_0_0, .ConvertToNone)])).2.glitter_count ∨
        (tick exampleHeader (run exampleHeader (1, freshMag)
          ([] ++ [(buf_0_0_0, .ConvertToNone)]))
          (buf_1000_0_0, .ConvertToNone)).1.2.glitter_count =
          ((run exampleHeader (1, freshMag)
            ([] ++ [(buf_0_0_0, .ConvertToNone)])).2.glitter_count + 1) % 65536) ∧
      ¬ ((tick exampleHeader (run exampleHeader (1, freshMag)
          ([] ++ [(buf_0_0_0, .ConvertToNone)]))
          (buf_1000_0_0, .ConvertToNone)).1.2.glitter_count =
          ((run exampleHeader (1, freshMag)
            ([] ++ [(buf_0_0_0, .ConvertToNone)])).2.glitter_count + 1) % 65536 ∧
        (tick exampleHeader (tick exampleHeader (run exampleHeader (1, freshMag)
          ([] ++ [(buf_0_0_0, .ConvertToNone)])) (buf_1000_0_0, .ConvertToNone)).1
          (buf_1030_0_0, .ConvertToNone)).1.2.glitter_count =
          ((tick exampleHeader (run exampleHeader (1, freshMag)
            ([] ++ [(buf_0_0_0, .ConvertToNone)]))
            (buf_1000_0_0, .ConvertToNone)).1.2.glitter_count + 1) % 65536)) :=
  ⟨by decide,
    C16_never_rejects_twice exampleHeader 1 (by decide) freshMag []
      (buf_0_0_0, .ConvertToNone) (buf_1000_0_0, .ConvertToNone)
      (buf_1030_0_0, .ConvertToNone)⟩

end GlitchCounter

section GlitchModeTag

open Magnetometer.GlitchBuild

/-- C18: the stored per-axis previous difference is exact.  For `int16_t` values `a`, `b` the
absolute difference is at most 65535, the conversion to the `uint16_t` field keeps its value,
and the test `prev_difference > 50` holds exactly when `|a - b| > 50`; the three fields are
written with that conversion on every read after the first. -/
theorem C18_prev_difference_exact (a b : Int) (ha : -32768 ≤ a ∧ a ≤ 32767)
    (hb : -32768 ≤ b ∧ b ≤ 32767) :
    absDiff a b ≤ 65535 ∧
    (toUInt16 (absDiff a b) : Int) = |a - b| ∧
    ((toUInt16 (absDiff a b) : Int) > GLITCH_FILTER_MAX_DIFF ↔ |a - b| > 50) ∧
    (∀ m : GlitchBuild.MagInternalData,
      (shiftHistory 0 m).prev_difference_x = toUInt16 (absDiff m.prev_data.rawX m.data.rawX) ∧
      (shiftHistory 0 m).prev_difference_y = toUInt16 (absDiff m.prev_data.rawY m.data.rawY) ∧
      (shiftHistory 0 m).prev_difference_z =
        toUInt16 (absDiff m.prev_data.rawZ m.data.rawZ)) := by
  have e := toUInt16_absDiff a b ha hb
  refine ⟨?_, ?_, ?_, fun m => ⟨rfl, rfl, rfl⟩⟩
  · unfold absDiff
    rw [abs_le]
    omega
  · rw [e]
    rfl
  · rw [e]
    unfold absDiff GLITCH_FILTER_MAX_DIFF
    exact Iff.rfl

/-- C18 at the extreme pair 32767, -32768, whose difference is 65535. -/
theorem C18_prev_difference_witness :
    absDiff 32767 (-32768) = 65535 ∧
    (absDiff 32767 (-32768) ≤ 65535 ∧
      (toUInt16 (absDiff 32767 (-32768)) : Int) = |(32767 : Int) - (-32768)| ∧
      ((toUInt16 (absDiff 32767 (-32768)) : Int) > GLITCH_FILTER_MAX_DIFF ↔
        |(32767 : Int) - (-32768)| > 50) ∧
      (∀ m : GlitchBuild.MagInternalData,
        (shiftHistory 0 m).prev_difference_x =
          toUInt16 (absDiff m.prev_data.rawX m.data.rawX) ∧
        (shiftHistory 0 m).prev_difference_y =
          toUInt16 (absDiff m.prev_data.rawY m.data.rawY) ∧
        (shiftHistory 0 m).prev_difference_z =
          toUInt16 (absDiff m.prev_data.rawZ m.data.rawZ))) :=
  ⟨by decide, C18_prev_difference_exact 32767 (-32768) (by decide) (by decide)⟩

end GlitchModeTag
